import Mathlib

/-!
# Verification development for the runroute route-suggestion API

Shallow embedding of the core of `api/route.ts` (the richest source variant):
geometry utilities, the synthetic route generator, the metrics engine, the
GraphHopper router client with its avoid-major-roads retry, the Overpass park
resolver, the per-candidate feature builders and the main request handler.

Modelling conventions:
* JavaScript numbers are idealized as real numbers `ℝ`; `Math.round` becomes
  `jsRound` (round half towards positive infinity), `Number(x.toFixed(2))`
  becomes `toFixed2`.
* Effects are made explicit: the two outbound HTTP collaborators (the
  GraphHopper router and the Overpass place-search service) are fields of an
  `Env` record; a thrown exception or a non-success HTTP status is an
  `Except.error` carrying the message that the source code would inspect.
* The router client logs which request bodies it actually POSTs (the second
  component returned by `runAttempts`), which makes the single-retry contract
  of the avoid-major-roads weighting hint observable.
* Absent / non-number JSON fields are `Option` values, mirroring the
  `typeof x === "number"` guards of the source.
-/

namespace RunRoute

noncomputable section

open Real

/-- Position in GeoJSON map order, `[lon, lat]`. -/
abbrev LonLat : Type := ℝ × ℝ

/-- Position in geo order, `[lat, lon]` (GraphHopper input order). -/
abbrev LatLon : Type := ℝ × ℝ

/-- Model of JavaScript `Math.round`: round half towards positive infinity. -/
def jsRound (x : ℝ) : ℤ := ⌊x + 1 / 2⌋

/-- Model of `Number(x.toFixed(2))` (round to two decimal places). -/
def toFixed2 (x : ℝ) : ℝ := (jsRound (x * 100) : ℝ) / 100

/-- Elevation preference of a request (`elevationPref`). -/
inductive Pref where
  | flat
  | hills
deriving DecidableEq

/-- Route shape of a request (`routeType`). -/
inductive RType where
  | loop
  | outAndBack
deriving DecidableEq

/-- Source: `metersToLon(m, lat) = m / (111320 * Math.cos(lat * Math.PI / 180))`. -/
def metersToLon (m lat : ℝ) : ℝ := m / (111320 * Real.cos (lat * Real.pi / 180))

/-- Source: `metersToLat(m) = m / 110540`. -/
def metersToLat (m : ℝ) : ℝ := m / 110540

/-- One sample point of the synthetic loop `makeLoop`: the loop has 70 segments,
sampled at angle `a = -π/2 + (i/70)·2π`, on a circle of radius
`targetMeters / 2π` centred one radius north of the start, so the sample at
`i = 0` is the southernmost point, the start itself.  For the `hills`
preference the radius is modulated by `1 + 0.2·sin(2a)`. -/
def makeLoopPoint (startLonLat : LonLat) (targetMeters : ℝ) (hilliness : Pref)
    (numPts : ℕ) (i : ℕ) : LonLat :=
  let radius := targetMeters / (2 * Real.pi)
  let centerLat := startLonLat.2 + metersToLat radius
  let centerLon := startLonLat.1
  let a := -(Real.pi / 2) + ((i : ℝ) / (numPts : ℝ)) * (2 * Real.pi)
  let hillFactor := if hilliness = Pref.hills then 1 + 0.2 * Real.sin (2 * a) else 1
  let r := radius * hillFactor
  (centerLon + metersToLon (r * Real.cos a) centerLat,
   centerLat + metersToLat (r * Real.sin a))

/-- Source: `makeLoop(startLonLat, targetMeters, hilliness)`, the synthetic
71-point loop used when no real route is available. -/
def makeLoop (startLonLat : LonLat) (targetMeters : ℝ) (hilliness : Pref) : List LonLat :=
  (List.range (70 + 1)).map (makeLoopPoint startLonLat targetMeters hilliness 70)

/-- Source: `makeOutAndBack(startLonLat, targetMeters, bearingDeg)`. -/
def makeOutAndBack (startLonLat : LonLat) (targetMeters bearingDeg : ℝ) : List LonLat :=
  let oneWay := targetMeters / 2
  let b := bearingDeg * Real.pi / 180
  let out : LonLat :=
    (startLonLat.1 + metersToLon (oneWay * Real.cos b) startLonLat.2,
     startLonLat.2 + metersToLat (oneWay * Real.sin b))
  [startLonLat, out, startLonLat]

/-- One entry of an elevation profile (`{ distanceMeters, elevation }`); the
source always stores `Math.round`-ed (integer) elevations. -/
structure ElevPt where
  distanceMeters : ℝ
  elevation : ℤ

/-- Source: `fakeElevationProfile(lenMeters, pref, intensity)`: 51 samples,
base 120, amplitude `(35 if hills else 8) * intensity`, with an added second
harmonic for the hills preference. -/
def fakeElevationProfile (lenMeters : ℝ) (pref : Pref) (intensity : ℝ) : List ElevPt :=
  let pts : ℕ := 50
  let base : ℝ := 120
  let amp := (if pref = Pref.hills then (35 : ℝ) else 8) * intensity
  (List.range (pts + 1)).map fun i =>
    let elev := base + amp * Real.sin (((i : ℝ) / (pts : ℝ)) * (2 * Real.pi)) +
      (if pref = Pref.hills then amp * 0.4 * Real.sin (((i : ℝ) / (pts : ℝ)) * (6 * Real.pi)) else 0)
    ⟨((i : ℝ) / (pts : ℝ)) * lenMeters, jsRound elev⟩

/-- Source: `computeAscent(profile)` — sum of the positive consecutive
elevation deltas (the loop `for i in [1, length)` accumulating
`profile[i].elevation - profile[i-1].elevation` when positive). -/
def computeAscent : List ElevPt → ℤ
  | [] => 0
  | [_] => 0
  | p :: q :: rest =>
      (if q.elevation - p.elevation > 0 then q.elevation - p.elevation else 0) +
        computeAscent (q :: rest)

/-- Source: `scoreRoute(ascentMeters, pref)`:
`clamp(0, 100, round(100 - |ascent - target| / tolerance * 100))` with
`target = 60 / 220` and `tolerance = 90 / 160` for flat / hills. -/
def scoreRoute (ascentMeters : ℝ) (pref : Pref) : ℤ :=
  let target : ℝ := if pref = Pref.flat then 60 else 220
  let tolerance : ℝ := if pref = Pref.flat then 90 else 160
  max 0 (min 100 (jsRound (100 - |ascentMeters - target| / tolerance * 100)))

/-- One element of a JSON array fed to `normalizeLatLon`: `some x` when
`Number(elem)` is the finite number `x`, `none` when the conversion is not a
finite number (`NaN`, `Infinity`, objects, ...). -/
abbrev JSNum := Option ℝ

/-- The raw `startLatLng`-style input of `normalizeLatLon`: either not an array
at all, or an array of converted elements. -/
inductive JSInput where
  | notArray
  | arr (xs : List JSNum)

/-- The pure swap heuristic at the heart of `normalizeLatLon`: swap exactly
when the first component cannot be a latitude (`|a| > 90`) while the second
can (`|b| ≤ 90`). -/
def normPair (a b : ℝ) : ℝ × ℝ :=
  if 90 < |a| ∧ |b| ≤ 90 then (b, a) else (a, b)

/-- Source: `normalizeLatLon(p, label)` — fails when the input is not an array
of at least two elements or either of the first two elements is not a finite
number; otherwise applies the swap heuristic `normPair`. -/
def normalizeLatLon (p : JSInput) (label : String := "point") : Except String (ℝ × ℝ) :=
  match p with
  | .notArray => .error ("Invalid " ++ label ++ ": expected [lat, lon]")
  | .arr (some a :: some b :: _) => .ok (normPair a b)
  | .arr (_ :: _ :: _) => .error ("Invalid " ++ label ++ ": lat/lon must be numbers")
  | .arr _ => .error ("Invalid " ++ label ++ ": expected [lat, lon]")

/-- Shape predicate for `normalizeLatLon` success: an array whose first two
elements convert to finite numbers. -/
def wellFormedPoint : JSInput → Prop
  | .arr (some _ :: some _ :: _) => True
  | _ => False

/-- Prefix test on character lists (helper for the substring checks below). -/
def listStartsWith : List Char → List Char → Bool
  | [], _ => true
  | _ :: _, [] => false
  | p :: ps, c :: cs => p == c && listStartsWith ps cs

/-- Substring test on character lists: does the text contain the pattern? -/
def listContainsFrom (pat : List Char) : List Char → Bool
  | [] => pat.isEmpty
  | c :: rest => listStartsWith pat (c :: rest) || listContainsFrom pat rest

/-- Source: `rateWarning(msg) = msg.toLowerCase().includes("limit")` — the
message sniffing that classifies a router failure as a rate limit. -/
def rateWarning (msg : String) : Bool :=
  listContainsFrom "limit".data msg.toLower.data

/-- Case-insensitive substring test, modelling the literal-escaped
`new RegExp(escaped, "i").test(name)` checks of the park-by-name filter. -/
def containsCI (haystack needle : String) : Bool :=
  listContainsFrom needle.toLower.data haystack.toLower.data

/-- The specific remediation warning used whenever `rateWarning` fires. -/
def rateLimitWarning : String :=
  "GraphHopper rate limit reached — showing estimated route. Wait a minute and try again."

/-- Source constant `PARK_WAYPOINTS = 6`. -/
def PARK_WAYPOINTS : ℕ := 6

/-- Source constant `PARK_MAX_LAPS = 4`. -/
def PARK_MAX_LAPS : ℤ := 4

/-- Source constant `PARK_MIN_AREA_M2 = 25_000`. -/
def PARK_MIN_AREA_M2 : ℝ := 25000

/-- Source constant `PARK_MIN_PERIMETER_M = 600`. -/
def PARK_MIN_PERIMETER_M : ℝ := 600

/-! ## Router client -/

/-- One coordinate of a GraphHopper path: `[lon, lat, ele?]`. -/
structure GHCoord where
  lon : ℝ
  lat : ℝ
  ele : Option ℝ

/-- One raw turn instruction of a GraphHopper path (`text`, `distance`, `sign`
may each be absent or of the wrong type, hence `Option`). -/
structure GHRawInstr where
  text : Option String
  distance : Option ℝ
  sign : Option ℤ

/-- One path of a GraphHopper response; `distance` / `time` are `none` when the
field is absent or not a number (`typeof path.distance === "number"` guards). -/
structure GHPath where
  points : List GHCoord
  distance : Option ℝ
  time : Option ℝ
  instructions : List GHRawInstr

/-- A parsed GraphHopper response body (`{ paths: [...] }`). -/
structure GHJson where
  paths : List GHPath

/-- The request body POSTed by `ghPost`.  The constant fields
(`points_encoded:false`, `instructions:true`, `calc_points:true`,
`elevation:true`) are the same for every call and are left implicit;
`customModel = true` means the `AVOID_MAJOR_ROADS_MODEL` weighting hint
(with `ch.disable`) was merged into the body. -/
structure GHBody where
  points : List LonLat
  profile : String
  algorithm : Option String
  roundTripDistance : Option ℤ
  roundTripSeed : Option ℕ
  customModel : Bool

/-- Body of a point-to-point routing request. -/
def p2pBody (safePoints : List LonLat) (profile : String) (custom : Bool) : GHBody :=
  ⟨safePoints, profile, none, none, none, custom⟩

/-- Body of a `round_trip` routing request (`round_trip.distance` is
`Math.round`-ed in the source). -/
def roundTripBody (lon lat : ℝ) (dist : ℤ) (seed : ℕ) (profile : String) (custom : Bool) :
    GHBody :=
  ⟨[(lon, lat)], profile, some "round_trip", some dist, some seed, custom⟩

/-- A structured rendering of the Overpass QL query strings built by the two
park lookups (the source interpolates radius / lat / lon / escaped name into a
query string; we keep the parameters). -/
inductive OverpassQuery where
  | nearest (radius lat lon : ℝ)
  | byName (name : String) (radius lat lon : ℝ)

/-- Tags of an Overpass element (only the tags the source reads). -/
structure OsmTags where
  name : Option String
  leisure : Option String
  landuse : Option String

/-- Element type of an Overpass element. -/
inductive OsmType where
  | node
  | way
  | relation
deriving DecidableEq, BEq

/-- A member way of an Overpass relation (geometry as `[lon, lat]` pairs; the
source converts each `{lat, lon}` member object on the fly). -/
structure OsmMember where
  mtype : OsmType
  geometry : Option (List LonLat)

/-- An Overpass element as read by the park resolver. -/
structure OsmElement where
  etype : OsmType
  tags : Option OsmTags
  geometry : Option (List LonLat)
  members : List OsmMember

/-- A parsed Overpass response (`{ elements: [...] }`). -/
structure OverpassJson where
  elements : List OsmElement

/-- The environment of external collaborators: the optional GraphHopper key,
the GraphHopper POST endpoint (`ghPost key body`), and the Overpass endpoint.
`Except.error` is a thrown exception or non-success HTTP status carrying the
message the source inspects; `Except.ok none` for Overpass is the `null`
returned by `overpassRequest` on a non-ok status or unparsable body. -/
structure Env where
  ghKey : Option String
  ghPost : String → GHBody → Except String GHJson
  overpass : OverpassQuery → Except String (Option OverpassJson)

/-- One attempt of the router client: POST the body, read `paths[0]`, and fail
with the no-coordinates message when the path or its coordinates are missing
or empty. -/
def ghAttempt (post : GHBody → Except String GHJson) (noCoordsMsg : String)
    (b : GHBody) : Except String (GHPath × List GHCoord) :=
  match post b with
  | .error e => .error e
  | .ok json =>
    match json.paths.head? with
    | none => .error noCoordsMsg
    | some path => if path.points.isEmpty then .error noCoordsMsg else .ok (path, path.points)

/-- The `for (const body of attempts)` loop shared by `graphHopperRoute` and
`ghRoundTrip`: try each body in turn, return the first success, surface the
last error.  The second component is the trace of bodies actually POSTed
(the effect log of the loop, used to state the retry contract). -/
def runAttempts (post : GHBody → Except String GHJson) (noCoordsMsg fallbackMsg : String) :
    List GHBody → Except String (GHPath × List GHCoord) × List GHBody
  | [] => (.error fallbackMsg, [])
  | [b] => (ghAttempt post noCoordsMsg b, [b])
  | b :: rest =>
    match ghAttempt post noCoordsMsg b with
    | .ok r => (.ok r, [b])
    | .error _ =>
      let p := runAttempts post noCoordsMsg fallbackMsg rest
      (p.1, b :: p.2)

/-- Source: `graphHopperRoute(points, key, profile, avoidMajorRoads)` — the
point-to-point client.  Every input point goes through `normalizeLatLon`
(never-failing here since the points are number pairs, so `normPair`) and is
swapped to `[lon, lat]` body order; with the avoid-major-roads hint the
weighted body is tried first and the bare body once after a failure. -/
def graphHopperRoute (env : Env) (key : String) (points : List LatLon) (profile : String)
    (avoidMajorRoads : Bool) : Except String (GHPath × List GHCoord) × List GHBody :=
  let safePoints := points.map fun p =>
    let q := normPair p.1 p.2
    ((q.2, q.1) : LonLat)
  let base := p2pBody safePoints profile false
  let attempts := if avoidMajorRoads then [p2pBody safePoints profile true, base] else [base]
  runAttempts (env.ghPost key) "GraphHopper returned no coordinates"
    "GraphHopper point-to-point failed" attempts

/-- Source: `ghRoundTrip(lat, lon, distanceMeters, seed, key, profile,
avoidMajorRoads)` — the round-trip client, with the same single-retry
treatment of the avoid-major-roads hint. -/
def ghRoundTrip (env : Env) (key : String) (lat lon distanceMeters : ℝ) (seed : ℕ)
    (profile : String) (avoidMajorRoads : Bool) :
    Except String (GHPath × List GHCoord) × List GHBody :=
  let base := roundTripBody lon lat (jsRound distanceMeters) seed profile false
  let attempts :=
    if avoidMajorRoads then [roundTripBody lon lat (jsRound distanceMeters) seed profile true, base]
    else [base]
  runAttempts (env.ghPost key) "GraphHopper round_trip returned no coordinates"
    "GraphHopper round_trip failed" attempts

/-! ## Geometry utilities for the park resolver -/

/-- Source: `projectMeters(lon, lat, originLat)` — local flat projection. -/
def projectMeters (lon lat originLat : ℝ) : ℝ × ℝ :=
  (lon * 111320 * Real.cos (originLat * Real.pi / 180), lat * 110540)

/-- Source: `distMeters(aLon, aLat, bLon, bLat, originLat)`. -/
def distMeters (aLon aLat bLon bLat originLat : ℝ) : ℝ :=
  let a := projectMeters aLon aLat originLat
  let b := projectMeters bLon bLat originLat
  Real.sqrt ((a.1 - b.1) ^ 2 + (a.2 - b.2) ^ 2)

/-- Source: `closestPointOnSegmentMeters(ax, ay, bx, by, px, py)` returning
`{x, y, t}`. -/
def closestPointOnSegmentMeters (ax ay bx yb px py : ℝ) : ℝ × ℝ × ℝ :=
  let abx := bx - ax
  let aby := yb - ay
  let apx := px - ax
  let apy := py - ay
  let ab2 := abx * abx + aby * aby
  if ab2 ≤ 1e-12 then (ax, ay, 0)
  else
    let t := (apx * abx + apy * aby) / ab2
    let t2 := max 0 (min 1 t)
    (ax + t2 * abx, ay + t2 * aby, t2)

/-- Source: `polygonPerimeterMeters(poly, originLat)`; an unclosed polyline is
implicitly closed by one extra last-to-first segment. -/
def polygonPerimeterMeters (poly : List LonLat) (originLat : ℝ) : ℝ :=
  if poly.length < 2 then 0
  else
    let p := ((poly.zip poly.tail).map fun sg =>
      distMeters sg.1.1 sg.1.2 sg.2.1 sg.2.2 originLat).sum
    let first := poly.headD (0, 0)
    let last := poly.getLastD (0, 0)
    if first.1 = last.1 ∧ first.2 = last.2 then p
    else p + distMeters last.1 last.2 first.1 first.2 originLat

/-- Source: `polygonAreaMeters2(poly, originLat)` — absolute shoelace area in
the local projection. -/
def polygonAreaMeters2 (poly : List LonLat) (originLat : ℝ) : ℝ :=
  if poly.length < 3 then 0
  else
    let pts := poly.map fun q => projectMeters q.1 q.2 originLat
    |((pts.zip (pts.rotate 1)).map fun pr => pr.1.1 * pr.2.2 - pr.2.1 * pr.1.2).sum| / 2

/-- Source: `nearestBoundaryPoint(poly, pLon, pLat, originLat)` returning
`{point, segIndex, dist}`.  The `best.dist = Infinity` initial accumulator of
the source loop is modelled by an `Option` accumulator (every finite distance
beats `none`); the returned distance is `none` exactly when the source would
return `Infinity` (fewer than 2 vertices). -/
def nearestBoundaryPoint (poly : List LonLat) (pLon pLat originLat : ℝ) :
    LonLat × ℕ × Option ℝ :=
  if poly.length < 2 then ((pLon, pLat), 0, none)
  else
    let P := projectMeters pLon pLat originLat
    let best := ((poly.zip poly.tail).enum).foldl
      (fun (acc : Option (ℝ × ℝ × ℕ × ℝ)) x =>
        let i := x.1
        let a := x.2.1
        let b := x.2.2
        let A := projectMeters a.1 a.2 originLat
        let B := projectMeters b.1 b.2 originLat
        let C := closestPointOnSegmentMeters A.1 A.2 B.1 B.2 P.1 P.2
        let d := Real.sqrt ((C.1 - P.1) ^ 2 + (C.2.1 - P.2) ^ 2)
        match acc with
        | none => some (C.1, C.2.1, i, d)
        | some (bx, yb, bi, bd) =>
          if d < bd then some (C.1, C.2.1, i, d) else some (bx, yb, bi, bd)) none
    match best with
    | none => ((pLon, pLat), 0, none)
    | some (x, y, si, d) =>
      ((x / (111320 * Real.cos (originLat * Real.pi / 180)), y / 110540), si, some d)

/-- Source: `boundaryWaypoints(poly, startAtSegIndex, count, originLat)` —
close the ring, rotate it to start at the given segment, build cumulative arc
lengths, and linearly interpolate `count` evenly-arc-spaced points. -/
def boundaryWaypoints (poly : List LonLat) (startAtSegIndex count : ℕ) (originLat : ℝ) :
    List LonLat :=
  if poly.length < 2 then []
  else
    let first := poly.headD (0, 0)
    let last := poly.getLastD (0, 0)
    let ring := if first.1 = last.1 ∧ first.2 = last.2 then poly else poly ++ [first]
    let startIdx := min startAtSegIndex (ring.length - 2)
    let rotated := ring.drop startIdx ++ (ring.drop 1).take startIdx
    let cum := (rotated.zip rotated.tail).scanl
      (fun acc sg => acc + distMeters sg.1.1 sg.1.2 sg.2.1 sg.2.2 originLat) 0
    let total := cum.getLastD 0
    if total ≤ 1 then []
    else
      (List.range count).map fun k0 =>
        let k : ℕ := k0 + 1
        let target := ((k : ℝ) / ((count : ℝ) + 1)) * total
        let i := match (cum.drop 1).findIdx? (fun c => if c < target then false else true) with
          | some j => j + 1
          | none => cum.length - 1
        let prev := cum.getD (i - 1) 0
        let next := cum.getD i 0
        let t := if next > prev then (target - prev) / (next - prev) else 0
        let a := rotated.getD (i - 1) (0, 0)
        let b := rotated.getD i (0, 0)
        (a.1 + (b.1 - a.1) * t, a.2 + (b.2 - a.2) * t)

/-! ## Place resolver -/

/-- Best candidate park: boundary polyline, nearest entry point, distance to
the boundary, and approximate area / perimeter (type `ParkPick` of the
source). -/
structure ParkPick where
  name : Option String
  boundary : List LonLat
  entry : LonLat
  distToBoundary : ℝ
  areaM2 : ℝ
  perimeterM : ℝ

/-- One step of the naive relation stitching: find the unused chunk whose head
or tail is nearest (plain `Math.hypot` on degree deltas) to the end of the
assembled polyline, flipping when the tail is closer.  `none` when every chunk
is used. -/
def findNearestChunk (chunks : List (List LonLat)) (used : List Bool) (lastPt : LonLat) :
    Option (ℕ × Bool) :=
  let r := (List.range chunks.length).foldl
    (fun (acc : Option (ℕ × Bool × ℝ)) i =>
      if used.getD i true then acc
      else
        let c := chunks.getD i []
        let hd := c.headD (0, 0)
        let tl := c.getLastD (0, 0)
        let dHead := Real.sqrt ((hd.1 - lastPt.1) ^ 2 + (hd.2 - lastPt.2) ^ 2)
        let dTail := Real.sqrt ((tl.1 - lastPt.1) ^ 2 + (tl.2 - lastPt.2) ^ 2)
        let acc1 := match acc with
          | none => some (i, false, dHead)
          | some (j, f, d) => if dHead < d then some (i, false, dHead) else some (j, f, d)
        match acc1 with
        | none => none
        | some (j, f, d) => if dTail < d then some (i, true, dTail) else some (j, f, d)) none
  r.map fun x => (x.1, x.2.1)

/-- The `while (true)` stitching loop: each iteration consumes one unused
chunk, so `chunks.length` steps of fuel are exactly enough; the appended chunk
drops its first point to avoid duplicating the join. -/
def stitchGo (chunks : List (List LonLat)) : ℕ → List Bool → List LonLat → List LonLat
  | 0, _, out => out
  | fuel + 1, used, out =>
    match findNearestChunk chunks used (out.getLastD (0, 0)) with
    | none => out
    | some (i, flip) =>
      let c := chunks.getD i []
      let nxt := if flip then c.reverse else c
      stitchGo chunks fuel (used.set i true) (out ++ nxt.drop 1)

/-- Stitch the member-way chunks of a relation, starting from chunk 0. -/
def stitchChunks (chunks : List (List LonLat)) : List LonLat :=
  match chunks with
  | [] => []
  | c0 :: _ =>
    stitchGo chunks chunks.length ((List.range chunks.length).map fun i => decide (i = 0)) c0

/-- Source: `extractBoundaryLonLat(el)` — a way with at least 3 geometry
points is its own boundary; a relation stitches its member ways; anything else
yields the empty polyline.  (A relation with no usable member way would make
the source throw on `chunks[0]`; the caller catches such exceptions into a
null park, and we model the case as the empty boundary, which is likewise
discarded.) -/
def extractBoundaryLonLat (el : OsmElement) : List LonLat :=
  match el.etype with
  | .way =>
    match el.geometry with
    | some g => if 3 ≤ g.length then g else []
    | none => []
  | .relation =>
    let chunks := el.members.filterMap fun m =>
      if m.mtype = OsmType.way then
        match m.geometry with
        | some g => if 3 ≤ g.length then some g else none
        | none => none
      else none
    match chunks with
    | [c] => c
    | _ => stitchChunks chunks
  | .node => []

/-- Source: `pickBestParkFromElements(elements, startLat, startLon)` — filter
degenerate boundaries (tiny area / perimeter), then pick the candidate with
the lowest `distToBoundary − min(300, sqrt(area)/10)` score (the
`bestScore = Infinity` start of the source loop is an `Option` accumulator). -/
def pickBestParkFromElements (elements : List OsmElement) (startLat startLon : ℝ) :
    Option ParkPick :=
  let originLat := startLat
  let candidates := elements.filterMap fun el =>
    let boundary := extractBoundaryLonLat el
    if boundary.length < 3 then none
    else
      match nearestBoundaryPoint boundary startLon startLat originLat with
      | (entry, _, some dist) =>
        let areaM2 := polygonAreaMeters2 boundary originLat
        let perM := polygonPerimeterMeters boundary originLat
        if areaM2 > 0 ∧ areaM2 < PARK_MIN_AREA_M2 then none
        else if perM > 0 ∧ perM < PARK_MIN_PERIMETER_M then none
        else some ⟨el.tags.bind (·.name), boundary, entry, dist, areaM2, perM⟩
      | (_, _, none) => none
  match candidates with
  | [] => none
  | _ =>
    let score := fun (c : ParkPick) => c.distToBoundary - min 300 (Real.sqrt (max 0 c.areaM2) / 10)
    (candidates.foldl
      (fun (acc : Option (ParkPick × ℝ)) c =>
        match acc with
        | none => some (c, score c)
        | some (b, bs) => if score c < bs then some (c, score c) else some (b, bs)) none).map (·.1)

/-- Tag filter of `findNearestParkWithBoundary`: a top-level way / relation
tagged `leisure ∈ {park, common}` or `landuse = recreation_ground`. -/
def isParkTop (e : OsmElement) : Bool :=
  (e.etype == OsmType.way || e.etype == OsmType.relation) &&
  (match e.tags with
   | none => false
   | some t =>
     (match t.leisure with
      | some l => l == "park" || l == "common"
      | none => false) ||
     (match t.landuse with
      | some u => u == "recreation_ground"
      | none => false))

/-- Tag filter of `findParkByNameWithBoundary`: additionally requires a name
tag matching the (literal-escaped, case-insensitive) search string. -/
def isParkTopNamed (needle : String) (e : OsmElement) : Bool :=
  (e.etype == OsmType.way || e.etype == OsmType.relation) &&
  (match e.tags with
   | none => false
   | some t =>
     (match t.name with
      | some nm => containsCI nm needle
      | none => false) &&
     ((match t.leisure with
       | some l => l == "park" || l == "common"
       | none => false) ||
      (match t.landuse with
       | some u => u == "recreation_ground"
       | none => false)))

/-- Source: `findNearestParkWithBoundary(lat, lon, radiusMeters = 3000)`.
An Overpass `null` or an empty element list yields no park; otherwise the
top-level park-like elements are scored by `pickBestParkFromElements`.
`Except.error` propagates a thrown fetch error to the caller. -/
def findNearestParkWithBoundary (env : Env) (lat lon : ℝ) (radiusMeters : ℝ := 3000) :
    Except String (Option ParkPick) :=
  match env.overpass (.nearest radiusMeters lat lon) with
  | .error e => .error e
  | .ok none => .ok none
  | .ok (some j) =>
    if j.elements.isEmpty then .ok none
    else .ok (pickBestParkFromElements (j.elements.filter isParkTop) lat lon)

/-- Source: `findParkByNameWithBoundary(name, lat, lon, radiusMeters = 15000)`. -/
def findParkByNameWithBoundary (env : Env) (name : String) (lat lon : ℝ)
    (radiusMeters : ℝ := 15000) : Except String (Option ParkPick) :=
  match env.overpass (.byName name radiusMeters lat lon) with
  | .error e => .error e
  | .ok none => .ok none
  | .ok (some j) =>
    if j.elements.isEmpty then .ok none
    else .ok (pickBestParkFromElements (j.elements.filter (isParkTopNamed name)) lat lon)

/-! ## Feature assembly -/

/-- The `metrics` object of a route feature. -/
structure Metrics where
  distanceMiles : ℝ
  timeMinutes : ℤ
  totalAscent : ℤ
  totalDescent : ℤ

/-- One parsed turn instruction of a route feature. -/
structure Instr where
  text : String
  distanceMiles : ℝ
  sign : ℤ

/-- The extra park metadata attached to park-boundary-loop features. -/
structure ParkMeta where
  parkName : Option String
  parkEntryLonLat : LonLat
  parkBoundaryAreaM2 : ℤ
  parkBoundaryPerimeterM : ℤ
  parkLaps : ℤ
  transitDistanceMiles : ℝ

/-- The `properties` object of a route feature; `instructions = none` models
the mock features, which carry no instructions field at all. -/
structure FeatureProps where
  metrics : Metrics
  overallScore : ℤ
  warnings : List String
  elevationProfile : List ElevPt
  instructions : Option (List Instr)
  source : String
  parkMeta : Option ParkMeta

/-- A GeoJSON LineString feature (geometry coordinates plus properties). -/
structure Feature where
  coordinates : List LonLat
  props : FeatureProps

/-- Source: `buildMockFeature(coords, targetMeters, pref, elevIntensity,
warnings)` — a synthetic feature: fake elevation profile, metrics derived from
the target distance at 10 minutes per mile, provenance tag `"mock"`. -/
def buildMockFeature (coords : List LonLat) (targetMeters : ℝ) (pref : Pref)
    (elevIntensity : ℝ) (warnings : List String) : Feature :=
  let elev := fakeElevationProfile targetMeters pref elevIntensity
  let asc := computeAscent elev
  ⟨coords,
   ⟨⟨toFixed2 (targetMeters / 1609.34), jsRound (targetMeters / 1609.34 * 10), asc, asc⟩,
    scoreRoute (asc : ℝ) pref, warnings, elev, none, "mock", none⟩⟩

/-- Source: `parseGHFeature(path, coords, targetMeters, pref, elevIntensity)`
— a feature from one successful GraphHopper path: real geometry, elevation
profile distance-interpolated from the per-point altitudes when more than two
are present, otherwise the synthetic profile; provenance `"graphhopper"`,
empty warnings. -/
def parseGHFeature (path : GHPath) (coords : List GHCoord) (targetMeters : ℝ) (pref : Pref)
    (elevIntensity : ℝ) : Feature :=
  let coordsLonLat := coords.map fun c => ((c.lon, c.lat) : LonLat)
  let altitudes := coords.filterMap (·.ele)
  let elevProfile :=
    if altitudes.length > 2 then
      let total := path.distance.getD targetMeters
      let step := total / ((altitudes.length - 1 : ℕ) : ℝ)
      altitudes.enum.map fun x => (⟨(x.1 : ℝ) * step, jsRound x.2⟩ : ElevPt)
    else fakeElevationProfile targetMeters pref elevIntensity
  let ascent := computeAscent elevProfile
  let distanceMeters := path.distance.getD targetMeters
  let distanceMiles := distanceMeters / 1609.34
  let timeMinutes :=
    match path.time with
    | some t => jsRound (t / 1000 / 60)
    | none => jsRound (distanceMiles * 10)
  let instructions := path.instructions.map fun inst =>
    (⟨inst.text.getD "", toFixed2 ((inst.distance.getD 0) / 1609.34), inst.sign.getD 0⟩ : Instr)
  ⟨coordsLonLat,
   ⟨⟨toFixed2 distanceMiles, timeMinutes, ascent, ascent⟩, scoreRoute (ascent : ℝ) pref, [],
    elevProfile, some instructions, "graphhopper", none⟩⟩

/-- Source: `buildCombinedFeature(allCoords, totalDistanceMeters, totalTimeMs,
allAltitudes, targetMeters, pref, elevIntensity, instructions)` — the stitched
park-loop feature before the park metadata is attached. -/
def buildCombinedFeature (allCoords : List LonLat) (totalDistanceMeters totalTimeMs : ℝ)
    (allAltitudes : List ℝ) (targetMeters : ℝ) (pref : Pref) (elevIntensity : ℝ)
    (instructions : Option (List Instr)) : Feature :=
  let elevProfile :=
    if allAltitudes.length > 2 then
      let step := totalDistanceMeters / ((allAltitudes.length - 1 : ℕ) : ℝ)
      allAltitudes.enum.map fun x => (⟨(x.1 : ℝ) * step, jsRound x.2⟩ : ElevPt)
    else fakeElevationProfile targetMeters pref elevIntensity
  let ascent := computeAscent elevProfile
  let distanceMiles := totalDistanceMeters / 1609.34
  let timeMinutes :=
    if totalTimeMs > 0 then jsRound (totalTimeMs / 1000 / 60) else jsRound (distanceMiles * 10)
  ⟨allCoords,
   ⟨⟨toFixed2 distanceMiles, timeMinutes, ascent, ascent⟩, scoreRoute (ascent : ℝ) pref, [],
    elevProfile, some (instructions.getD []), "graphhopper", none⟩⟩

/-- The lap-repetition loop of `buildParkBoundaryLoopFeature`
(`for i in 0..laps: push(i == 0 ? lap : lap.slice(1))`): the first repetition
is the whole lap, every later one drops the duplicated first point. -/
def pushLaps (lap : List LonLat) (n : ℕ) : List LonLat :=
  (List.range n).flatMap fun i => if i = 0 then lap else lap.drop 1

/-- The lap count chosen by `buildParkBoundaryLoopFeature` when the measured
lap distance is positive: whole-lap rounding of the remaining budget
`max(600, target − 2·transit)` over the lap distance, clamped to `[1, 4]`. -/
def parkLapCount (targetMeters toDistance lapDistance : ℝ) : ℤ :=
  max 1 (min PARK_MAX_LAPS (jsRound (max 600 (targetMeters - toDistance * 2) / lapDistance)))

/-- Source: `buildParkBoundaryLoopFeature({...})` — route home → park entry,
sample `PARK_WAYPOINTS` perimeter waypoints, route one lap around them, repeat
the lap to fill `max(600, target − 2·transit)` meters up to `PARK_MAX_LAPS`
laps (whole-lap rounding), and stitch transit + laps + reversed transit.  Any
router failure degrades to a mock feature whose warning distinguishes the
rate-limit case. -/
def buildParkBoundaryLoopFeature (env : Env) (lat lon : ℝ) (park : ParkPick)
    (targetMeters : ℝ) (seed : ℕ) (pref : Pref) (ghKey : String) (mockCoords : List LonLat)
    (elevIntensity : ℝ) (extraWarning : Option String) (avoidMajorRoads : Bool) : Feature :=
  let entryLonLat := park.entry
  let entryLatLon : LatLon := (entryLonLat.2, entryLonLat.1)
  match (graphHopperRoute env ghKey [(lat, lon), entryLatLon] "foot" avoidMajorRoads).1 with
  | .error msg =>
    buildMockFeature mockCoords targetMeters pref elevIntensity
      [if rateWarning msg then rateLimitWarning
       else "Park loop route failed, showing estimated route."]
  | .ok (toPath, toCoords) =>
    let toDistance := toPath.distance.getD 0
    let toTime := toPath.time.getD 0
    let loopBudget := max 600 (targetMeters - toDistance * 2)
    let originLat := lat
    let nearest := nearestBoundaryPoint park.boundary lon lat originLat
    let wpsLonLat := boundaryWaypoints park.boundary nearest.2.1 PARK_WAYPOINTS originLat
    if wpsLonLat.isEmpty then
      buildMockFeature mockCoords targetMeters pref elevIntensity
        ["Park boundary was too small/unclear — showing estimated route."]
    else
      let lapWaypoints : List LatLon :=
        [entryLatLon] ++ wpsLonLat.map (fun w => ((w.2, w.1) : LatLon)) ++ [entryLatLon]
      match (graphHopperRoute env ghKey lapWaypoints "foot" avoidMajorRoads).1 with
      | .error msg =>
        buildMockFeature mockCoords targetMeters pref elevIntensity
          [if rateWarning msg then rateLimitWarning
           else "Park loop route failed, showing estimated route."]
      | .ok (lapPath, lapCoords) =>
        let lapDistance := lapPath.distance.getD 0
        let lapTime := lapPath.time.getD 0
        let safeLap : ℤ :=
          max 1 (min PARK_MAX_LAPS
            (if lapDistance > 0 then jsRound (loopBudget / lapDistance) else 1))
        let lapLonLat := lapCoords.map fun c => ((c.lon, c.lat) : LonLat)
        let loopLonLat := pushLaps lapLonLat safeLap.toNat
        let loopActualDistance := lapDistance * (safeLap : ℝ)
        let loopActualTime := lapTime * (safeLap : ℝ)
        let toLonLat := toCoords.map fun c => ((c.lon, c.lat) : LonLat)
        let fromLonLat := toLonLat.reverse
        let allCoords := toLonLat ++ loopLonLat ++ fromLonLat
        let toAlts := toCoords.filterMap (·.ele)
        let lapAlts := lapCoords.filterMap (·.ele)
        let loopAlts := (List.range safeLap.toNat).flatMap fun _ => lapAlts
        let allAlts := toAlts ++ loopAlts ++ toAlts.reverse
        let totalDistance := toDistance * 2 + loopActualDistance
        let totalTime := toTime * 2 + loopActualTime
        let parkLabel := (park.name.getD "Park") ++ " — " ++ toString safeLap ++
          (if safeLap = 1 then " loop" else " loops")
        let instructions : List Instr :=
          [⟨"Run to " ++ park.name.getD "the park", toFixed2 (toDistance / 1609.34), 0⟩,
           ⟨parkLabel, toFixed2 (loopActualDistance / 1609.34), 0⟩,
           ⟨"Retrace your route back to start", toFixed2 (toDistance / 1609.34), 4⟩]
        let base := buildCombinedFeature allCoords totalDistance totalTime allAlts targetMeters
          pref elevIntensity (some instructions)
        { base with
          props := { base.props with
            parkMeta := some ⟨park.name, entryLonLat, jsRound park.areaM2,
              jsRound park.perimeterM, safeLap, toFixed2 ((toDistance * 2) / 1609.34)⟩,
            warnings := match extraWarning with
              | some w => w :: base.props.warnings
              | none => base.props.warnings } }

/-- Source: `buildPointToPointFeature({...})` — without a key, a mock feature;
with a key, a parsed GraphHopper feature, degrading on failure to a mock
feature whose warning distinguishes the rate-limit case (the non-rate-limit
catch falls through to the shared final mock, whose message with a key present
is the generic failure text). -/
def buildPointToPointFeature (env : Env) (waypoints : List LatLon) (mockCoords : List LonLat)
    (targetMeters : ℝ) (pref : Pref) (ghKey : Option String) (ghProfile : String)
    (elevIntensity : ℝ) (avoidMajorRoads : Bool) : Feature :=
  match ghKey with
  | none => buildMockFeature mockCoords targetMeters pref elevIntensity ["Using mock (no GH key)."]
  | some key =>
    match (graphHopperRoute env key waypoints ghProfile avoidMajorRoads).1 with
    | .ok (path, coords) => parseGHFeature path coords targetMeters pref elevIntensity
    | .error msg =>
      if rateWarning msg then
        buildMockFeature mockCoords targetMeters pref elevIntensity [rateLimitWarning]
      else
        buildMockFeature mockCoords targetMeters pref elevIntensity
          ["Route used mock (GraphHopper failed)."]

/-- Source: `buildRoundTripFeature({...})` — same degradation policy as the
point-to-point builder, over the round-trip client. -/
def buildRoundTripFeature (env : Env) (lat lon targetMeters : ℝ) (seed : ℕ)
    (mockCoords : List LonLat) (pref : Pref) (ghKey : Option String) (ghProfile : String)
    (elevIntensity : ℝ) (avoidMajorRoads : Bool) : Feature :=
  match ghKey with
  | none => buildMockFeature mockCoords targetMeters pref elevIntensity ["Using mock (no GH key)."]
  | some key =>
    match (ghRoundTrip env key lat lon targetMeters seed ghProfile avoidMajorRoads).1 with
    | .ok (path, coords) => parseGHFeature path coords targetMeters pref elevIntensity
    | .error msg =>
      if rateWarning msg then
        buildMockFeature mockCoords targetMeters pref elevIntensity [rateLimitWarning]
      else
        buildMockFeature mockCoords targetMeters pref elevIntensity
          ["Route used mock (GraphHopper failed)."]

/-- Source: `buildOutAndBackWaypoints(lat, lon, targetMeters, bearingDeg)`. -/
def buildOutAndBackWaypoints (lat lon targetMeters bearingDeg : ℝ) : List LatLon :=
  let b := bearingDeg * Real.pi / 180
  let oneWay := targetMeters / 2
  let mid : LatLon :=
    (lat + metersToLat (oneWay * Real.sin b), lon + metersToLon (oneWay * Real.cos b) lat)
  [(lat, lon), mid, (lat, lon)]

/-! ## Main handler -/

/-- The parsed POST body.  `startLatLng = none` models a missing / falsy
field; `targetMeters = none` a missing or non-number field (its zero check is
separate, since `!targetMeters` also rejects `0`); `directionSeed` is kept as
a natural number (the client increments it from 0); `loopAtPark` and
`avoidMajorRoads` are the truthiness / `=== true` coercions of the source. -/
structure ReqBody where
  startLatLng : Option JSInput
  routeType : Option String
  targetMeters : Option ℝ
  elevationPref : Option String
  directionSeed : Option ℕ
  loopAtPark : Bool
  parkSearch : Option String
  avoidMajorRoads : Bool

/-- The response of the handler: the GET liveness reply, an error status with
message, or a 200 FeatureCollection. -/
inductive ApiResponse where
  | alive
  | err (status : ℕ) (msg : String)
  | ok (features : List Feature)
deriving Inhabited

/-- `elevationPref === "hills" ? "hills" : "flat"`. -/
def prefOf (elevationPref : Option String) : Pref :=
  if elevationPref = some "hills" then Pref.hills else Pref.flat

/-- `routeType === "out-and-back" ? "out-and-back" : "loop"`. -/
def rtypeOf (routeType : Option String) : RType :=
  if routeType = some "out-and-back" then RType.outAndBack else RType.loop

/-- The bearing candidate cycles (hills vs flat). -/
def bearingCandidates (pref : Pref) : List ℝ :=
  if pref = Pref.hills then [25, 70, 115, 160, 205, 250, 295, 340]
  else [0, 90, 180, 270, 45, 135, 225, 315]

/-- `typeof parkSearch === "string" && parkSearch.trim().length > 0 ?
parkSearch.trim() : null`. -/
def searchNameOf (parkSearch : Option String) : Option String :=
  match parkSearch with
  | some s => if s.trim = "" then none else some s.trim
  | none => none

/-- Collapse a caught park-lookup exception (`.catch(() => null)`) into no
park. -/
def catchToNone (r : Except String (Option ParkPick)) : Option ParkPick :=
  match r with
  | .ok p => p
  | .error _ => none

/-- The park-resolution block of the handler (the `let park / parkWarning`
section): nothing without a key; with a search name, the by-name lookup first,
falling back — with the not-found warning — to the nearest-park lookup; plain
nearest-park lookup otherwise.  Lookup exceptions are caught to `null`. -/
def resolvePark (env : Env) (lat lon : ℝ) (searchName : Option String) :
    Option ParkPick × Option String :=
  match env.ghKey with
  | none => (none, none)
  | some _ =>
    match searchName with
    | some nm =>
      match catchToNone (findParkByNameWithBoundary env nm lat lon) with
      | some p => (some p, none)
      | none =>
        (catchToNone (findNearestParkWithBoundary env lat lon),
         some ("Couldn\x27t find \"" ++ nm ++ "\" nearby — routing to the nearest park instead."))
    | none => (catchToNone (findNearestParkWithBoundary env lat lon), none)

/-- The standard-loop fallthrough of the handler: three round-trip candidates
with target distances `t`, `t·0.98`, `t·1.02`, seeds `3s`, `3s+1`, `3s+2` and
the per-candidate synthetic-elevation intensities. -/
def standardLoopFeatures (env : Env) (lat lon : ℝ) (seedNum : ℕ) (tm : ℝ) (pref : Pref)
    (avoidMajor : Bool) : List Feature :=
  let startLonLat : LonLat := (lon, lat)
  [buildRoundTripFeature env lat lon tm (seedNum * 3) (makeLoop startLonLat tm pref) pref
     env.ghKey "foot" 1.0 avoidMajor,
   buildRoundTripFeature env lat lon (tm * 0.98) (seedNum * 3 + 1)
     (makeLoop startLonLat (tm * 0.98) pref) pref env.ghKey "foot"
     (if pref = Pref.hills then 0.85 else 0.8) avoidMajor,
   buildRoundTripFeature env lat lon (tm * 1.02) (seedNum * 3 + 2)
     (makeLoop startLonLat (tm * 1.02) pref) pref env.ghKey "foot"
     (if pref = Pref.hills then 1.55 else 1.25) avoidMajor]

/-- The three out-and-back candidates: bearings `b`, `b+35`, `b+70` with the
same distance jitter and intensities. -/
def outAndBackFeatures (env : Env) (lat lon : ℝ) (bearing : ℝ) (tm : ℝ) (pref : Pref)
    (avoidMajor : Bool) : List Feature :=
  let startLonLat : LonLat := (lon, lat)
  [buildPointToPointFeature env (buildOutAndBackWaypoints lat lon tm bearing)
     (makeOutAndBack startLonLat tm bearing) tm pref env.ghKey "foot" 1.0 avoidMajor,
   buildPointToPointFeature env (buildOutAndBackWaypoints lat lon (tm * 0.98) (bearing + 35))
     (makeOutAndBack startLonLat (tm * 0.98) (bearing + 35)) (tm * 0.98) pref env.ghKey "foot"
     (if pref = Pref.hills then 0.85 else 0.8) avoidMajor,
   buildPointToPointFeature env (buildOutAndBackWaypoints lat lon (tm * 1.02) (bearing + 70))
     (makeOutAndBack startLonLat (tm * 1.02) (bearing + 70)) (tm * 1.02) pref env.ghKey "foot"
     (if pref = Pref.hills then 1.55 else 1.25) avoidMajor]

/-- The three park-boundary-loop candidates (same jitter / seeds /
intensities, the not-found warning attached to each). -/
def parkLoopFeatures (env : Env) (lat lon : ℝ) (park : ParkPick) (seedNum : ℕ) (tm : ℝ)
    (pref : Pref) (key : String) (parkWarning : Option String) (avoidMajor : Bool) :
    List Feature :=
  let startLonLat : LonLat := (lon, lat)
  [buildParkBoundaryLoopFeature env lat lon park tm (seedNum * 3) pref key
     (makeLoop startLonLat tm pref) 1.0 parkWarning avoidMajor,
   buildParkBoundaryLoopFeature env lat lon park (tm * 0.98) (seedNum * 3 + 1) pref key
     (makeLoop startLonLat (tm * 0.98) pref) (if pref = Pref.hills then 0.85 else 0.8)
     parkWarning avoidMajor,
   buildParkBoundaryLoopFeature env lat lon park (tm * 1.02) (seedNum * 3 + 2) pref key
     (makeLoop startLonLat (tm * 1.02) pref) (if pref = Pref.hills then 1.55 else 1.25)
     parkWarning avoidMajor]

/-- Source: the main `handler(req, res)` — method dispatch, input validation
(missing `startLatLng` / `targetMeters` → 400), coordinate normalization (a
normalization throw is caught by the outer try and surfaces as a 500), bearing
selection from the direction seed, and the three-candidate orchestration for
the out-and-back / park-loop / standard-loop modes. -/
def handler (env : Env) (method : String) (body : ReqBody) : ApiResponse :=
  if method = "GET" then .alive
  else if method ≠ "POST" then .err 405 "Use POST"
  else
    match body.startLatLng with
    | none => .err 400 "Missing startLatLng: [lat,lng]"
    | some startInp =>
      match body.targetMeters with
      | none => .err 400 "Missing targetMeters (number)"
      | some tm =>
        if tm = 0 then .err 400 "Missing targetMeters (number)"
        else
          let pref := prefOf body.elevationPref
          let rtype := rtypeOf body.routeType
          match normalizeLatLon startInp "startLatLng" with
          | .error e => .err 500 e
          | .ok (lat, lon) =>
            let cands := bearingCandidates pref
            let seedNum := body.directionSeed.getD 0
            let bearing := cands.getD (seedNum % cands.length) 0
            let avoidMajor := body.avoidMajorRoads
            match rtype with
            | .outAndBack => .ok (outAndBackFeatures env lat lon bearing tm pref avoidMajor)
            | .loop =>
              if body.loopAtPark then
                let pr := resolvePark env lat lon (searchNameOf body.parkSearch)
                match env.ghKey, pr.1 with
                | some key, some park =>
                  .ok (parkLoopFeatures env lat lon park seedNum tm pref key pr.2 avoidMajor)
                | some _, none => .ok (standardLoopFeatures env lat lon seedNum tm pref avoidMajor)
                | none, _ => .ok (standardLoopFeatures env lat lon seedNum tm pref avoidMajor)
              else .ok (standardLoopFeatures env lat lon seedNum tm pref avoidMajor)

/-! ## Concrete environments and inputs used in the closed instances below -/

/-- A fixed two-point GraphHopper path of distance 1000 m (no times, no
altitudes, no instructions). -/
def pathFix : GHPath := ⟨[⟨0, 0, none⟩, ⟨1, 1, none⟩], some 1000, none, []⟩

/-- Environment whose router always answers with `pathFix` and whose Overpass
endpoint returns `null`. -/
def envPark : Env := ⟨some "k", fun _ _ => .ok ⟨[pathFix]⟩, fun _ => .ok none⟩

/-- Environment whose router always throws a generic failure. -/
def envDown : Env :=
  ⟨some "k", fun _ _ => .error "GraphHopper error (status 500)", fun _ => .ok none⟩

/-- Environment whose router always throws a rate-limit failure. -/
def envLimit : Env :=
  ⟨some "k", fun _ _ => .error "Daily request limit exceeded", fun _ => .ok none⟩

/-- Environment whose Overpass endpoint answers with an empty element list and
whose router always throws. -/
def envEmptyPlaces : Env :=
  ⟨some "k", fun _ _ => .error "down", fun _ => .ok (some ⟨[]⟩)⟩

/-- Environment whose router rejects exactly the weighted
(avoid-major-roads) bodies and accepts the bare ones. -/
def envRejectModel : Env :=
  ⟨some "k",
   fun _ b => if b.customModel then .error "custom model rejected" else .ok ⟨[pathFix]⟩,
   fun _ => .ok none⟩

/-- A two-vertex park boundary along the equator used by the concrete
park-loop runs. -/
def parkTwo : ParkPick := ⟨none, [(0, 0), (1, 0)], (0, 0), 0, 0, 0⟩

/-- A valid loop-mode request body at the origin for 4000 m. -/
def bodyLoop : ReqBody :=
  ⟨some (.arr [some 0, some 0]), none, some 4000, none, none, false, none, false⟩

/-- The same request with `loopAtPark` set. -/
def bodyParkLoop : ReqBody :=
  ⟨some (.arr [some 0, some 0]), none, some 4000, none, none, true, none, false⟩

end

/-! ## Coordinate normalization (claims C2, C10) -/

/-- C2: for every numeric pair `(a,b)`, `normalizeLatLon` returns the swapped
pair `(b,a)` when `|a| > 90` and `|b| ≤ 90`, returns `(a,b)` unchanged when
both magnitudes are at most 90, and fails exactly when the input is not an
array of at least 2 elements or either of the first two components is not a
finite number. -/
theorem normalizeLatLonSpec :
    (∀ a b : ℝ, 90 < |a| → |b| ≤ 90 →
      normalizeLatLon (.arr [some a, some b]) = .ok (b, a)) ∧
    (∀ a b : ℝ, |a| ≤ 90 → |b| ≤ 90 →
      normalizeLatLon (.arr [some a, some b]) = .ok (a, b)) ∧
    (∀ p : JSInput, (∃ q, normalizeLatLon p = .ok q) ↔ wellFormedPoint p) := by
  refine ⟨?_, ?_, ?_⟩
  · intro a b ha hb
    simp only [normalizeLatLon, normPair, Except.ok.injEq]
    rw [if_pos ⟨ha, hb⟩]
  · intro a b ha hb
    simp only [normalizeLatLon, normPair, Except.ok.injEq]
    rw [if_neg (fun hc => absurd hc.1 (not_lt.mpr ha))]
  · intro p
    match p with
    | .notArray => simp [normalizeLatLon, wellFormedPoint]
    | .arr [] => simp [normalizeLatLon, wellFormedPoint]
    | .arr [_] => simp [normalizeLatLon, wellFormedPoint]
    | .arr (some _ :: some _ :: _) => simp [normalizeLatLon, wellFormedPoint]
    | .arr (none :: _ :: _) => simp [normalizeLatLon, wellFormedPoint]
    | .arr (some _ :: none :: _) => simp [normalizeLatLon, wellFormedPoint]

/-- Closed instance of `normalizeLatLonSpec`: the map-order pair
`[-118, 34]` is swapped to `(34, -118)`. -/
theorem normalizeLatLonSpec_witness :
    normalizeLatLon (.arr [some (-118 : ℝ), some 34]) = .ok (34, -118) :=
  normalizeLatLonSpec.1 (-118) 34 (by norm_num) (by norm_num)

/-- C10: coordinate normalization is idempotent — feeding the normalized pair
back through `normalizeLatLon` returns it unchanged, so a coordinate pair is
never swapped twice. -/
theorem normalizeLatLonIdempotent (a b : ℝ) :
    normalizeLatLon (.arr [some (normPair a b).1, some (normPair a b).2]) =
      .ok (normPair a b) := by
  have key : normPair (normPair a b).1 (normPair a b).2 = normPair a b := by
    by_cases h : 90 < |a| ∧ |b| ≤ 90
    · have h1 : normPair a b = (b, a) := if_pos h
      rw [h1]
      exact if_neg (fun hc => absurd hc.1 (not_lt.mpr h.2))
    · have h1 : normPair a b = (a, b) := if_neg h
      rw [h1]
      exact if_neg h
  simp only [normalizeLatLon, key]

/-! ## Metrics engine (claims C8, C9) -/

/-- C8: the preference-match score is exactly 100 at the archetypal target
ascent (60 m for flat, 220 m for hills), and for every ascent value the score
is an integer clamped to the range `[0, 100]`. -/
theorem scoreRouteSpec :
    scoreRoute 60 Pref.flat = 100 ∧ scoreRoute 220 Pref.hills = 100 ∧
    ∀ (a : ℝ) (p : Pref), 0 ≤ scoreRoute a p ∧ scoreRoute a p ≤ 100 := by
  refine ⟨?_, ?_, fun a p => ⟨le_max_left 0 _, max_le (by norm_num) (min_le_left _ _)⟩⟩
  · norm_num [scoreRoute, jsRound]
  · norm_num [scoreRoute, jsRound, eq_false (by decide : Pref.hills ≠ Pref.flat)]

/-- C9: `computeAscent` sums only the positive consecutive elevation deltas:
on a non-empty profile with non-decreasing elevations it equals the last
elevation minus the first, and on a profile with non-increasing elevations it
equals 0. -/
theorem computeAscentMonotone (l : List ElevPt) (h : l ≠ []) :
    (List.Chain' (fun p q : ElevPt => p.elevation ≤ q.elevation) l →
      computeAscent l = (l.getLast h).elevation - (l.head h).elevation) ∧
    (List.Chain' (fun p q : ElevPt => q.elevation ≤ p.elevation) l →
      computeAscent l = 0) := by
  induction l with
  | nil => exact absurd rfl h
  | cons p rest ih =>
    cases rest with
    | nil => simp [computeAscent]
    | cons q rest2 =>
      have hne : q :: rest2 ≠ [] := List.cons_ne_nil _ _
      obtain ⟨ih1, ih2⟩ := ih hne
      constructor
      · intro hc
        rw [List.chain'_cons] at hc
        obtain ⟨hpq, hc2⟩ := hc
        have hif : (if q.elevation - p.elevation > 0 then q.elevation - p.elevation else 0) =
            q.elevation - p.elevation := by
          split <;> omega
        have hlast : (p :: q :: rest2).getLast h = (q :: rest2).getLast hne :=
          List.getLast_cons hne
        rw [show computeAscent (p :: q :: rest2) =
              (if q.elevation - p.elevation > 0 then q.elevation - p.elevation else 0) +
                computeAscent (q :: rest2) from rfl,
            hif, ih1 hc2, hlast]
        simp [List.head]
      · intro hc
        rw [List.chain'_cons] at hc
        obtain ⟨hpq, hc2⟩ := hc
        have hif : (if q.elevation - p.elevation > 0 then q.elevation - p.elevation else 0) = 0 := by
          split <;> omega
        rw [show computeAscent (p :: q :: rest2) =
              (if q.elevation - p.elevation > 0 then q.elevation - p.elevation else 0) +
                computeAscent (q :: rest2) from rfl,
            hif, ih2 hc2]
        omega

/-- Closed instance of `computeAscentMonotone`: a rising profile yields
`last − first` and a falling profile yields 0. -/
theorem computeAscentMonotone_witness :
    computeAscent [⟨0, 3⟩, ⟨1, 5⟩, ⟨2, 9⟩] = 6 ∧ computeAscent [⟨0, 9⟩, ⟨1, 5⟩] = 0 := by
  constructor
  · have := (computeAscentMonotone [⟨0, 3⟩, ⟨1, 5⟩, ⟨2, 9⟩] (by simp)).1
      (by simp [List.chain'_cons])
    simpa [List.getLast, List.head] using this
  · exact (computeAscentMonotone [⟨0, 9⟩, ⟨1, 5⟩] (by simp)).2 (by simp [List.chain'_cons])

/-! ## Synthetic loop closure (claim C7) -/

/-- The sample at index 0 of the synthetic loop is the start point itself: the
angle is exactly `-π/2`, where the cosine offset vanishes and the sine offset
cancels the northward shift of the circle centre (the hills radius modulation
is 1 there since `sin(-π) = 0`). -/
lemma makeLoopPoint_start (s : LonLat) (t : ℝ) (p : Pref) : makeLoopPoint s t p 70 0 = s := by
  obtain ⟨s1, s2⟩ := s
  have ha : -(Real.pi / 2) + ((0 : ℕ) : ℝ) / ((70 : ℕ) : ℝ) * (2 * Real.pi) = -(Real.pi / 2) := by
    push_cast
    ring
  have hcos : Real.cos (-(Real.pi / 2)) = 0 := by rw [Real.cos_neg, Real.cos_pi_div_two]
  have hsin : Real.sin (-(Real.pi / 2)) = -1 := by rw [Real.sin_neg, Real.sin_pi_div_two]
  have hsin2 : Real.sin (2 * -(Real.pi / 2)) = 0 := by
    rw [show (2 : ℝ) * -(Real.pi / 2) = -Real.pi by ring, Real.sin_neg, Real.sin_pi, neg_zero]
  simp only [makeLoopPoint, metersToLon, metersToLat, ha, hcos, hsin, hsin2, mul_zero, zero_div,
    add_zero, mul_one, mul_neg_one, Prod.mk.injEq]
  constructor
  · ring_nf
  · rcases p with _ | _ <;> simp <;> ring_nf

/-- The sample at index 70 of the synthetic loop is again the start point: the
angle is `-π/2 + 2π`, trigonometric values as at index 0. -/
lemma makeLoopPoint_last (s : LonLat) (t : ℝ) (p : Pref) : makeLoopPoint s t p 70 70 = s := by
  obtain ⟨s1, s2⟩ := s
  have ha : -(Real.pi / 2) + ((70 : ℕ) : ℝ) / ((70 : ℕ) : ℝ) * (2 * Real.pi) =
      -(Real.pi / 2) + 2 * Real.pi := by
    push_cast
    ring
  have hcos : Real.cos (-(Real.pi / 2) + 2 * Real.pi) = 0 := by
    rw [Real.cos_add_two_pi, Real.cos_neg, Real.cos_pi_div_two]
  have hsin : Real.sin (-(Real.pi / 2) + 2 * Real.pi) = -1 := by
    rw [Real.sin_add_two_pi, Real.sin_neg, Real.sin_pi_div_two]
  have hsin2 : Real.sin (2 * (-(Real.pi / 2) + 2 * Real.pi)) = 0 := by
    rw [show (2 : ℝ) * (-(Real.pi / 2) + 2 * Real.pi) = Real.pi + 2 * Real.pi by ring,
      Real.sin_add_two_pi, Real.sin_pi]
  simp only [makeLoopPoint, metersToLon, metersToLat, ha, hcos, hsin, hsin2, mul_zero, zero_div,
    add_zero, mul_one, mul_neg_one, Prod.mk.injEq]
  constructor
  · ring_nf
  · rcases p with _ | _ <;> simp <;> ring_nf

/-- C7: for every origin, target distance and hilliness preference, the
synthetic loop `makeLoop` is a 71-point sequence whose first and last points
both equal the origin (exactly, in the idealized real-number model of the
floating-point computation). -/
theorem makeLoopClosure (startLonLat : LonLat) (targetMeters : ℝ) (pref : Pref) :
    (makeLoop startLonLat targetMeters pref).length = 71 ∧
    (makeLoop startLonLat targetMeters pref).head? = some startLonLat ∧
    (makeLoop startLonLat targetMeters pref).getLast? = some startLonLat := by
  refine ⟨by simp [makeLoop], ?_, ?_⟩
  · rw [makeLoop, List.range_succ_eq_map]
    simp [makeLoopPoint_start]
  · rw [makeLoop, List.range_succ, List.map_append]
    simp [makeLoopPoint_last]

/-! ## Router client retry contract (claim C5) -/

/-- C5: with the avoid-major-roads weighting hint, both router clients POST
the weighted body first; when that weighted attempt fails they retry exactly
once, with the hint removed (`customModel := false`) and everything else
unchanged, and surface the bare attempt's outcome; when the weighted attempt
succeeds there is no retry; without the hint a single bare body is POSTed; and
no call ever POSTs more than two bodies. -/
theorem avoidMajorRoadsRetry (env : Env) (key : String) (points : List LatLon)
    (profile : String) (lat lon distanceMeters : ℝ) (seed : ℕ) :
    (∀ sp, sp = points.map (fun p => (((normPair p.1 p.2).2, (normPair p.1 p.2).1) : LonLat)) →
      (graphHopperRoute env key points profile false).2 = [p2pBody sp profile false] ∧
      (graphHopperRoute env key points profile true).2.head? =
        some (p2pBody sp profile true) ∧
      (∀ r, ghAttempt (env.ghPost key) "GraphHopper returned no coordinates"
          (p2pBody sp profile true) = .ok r →
        graphHopperRoute env key points profile true = (.ok r, [p2pBody sp profile true])) ∧
      (∀ e, ghAttempt (env.ghPost key) "GraphHopper returned no coordinates"
          (p2pBody sp profile true) = .error e →
        (graphHopperRoute env key points profile true).2 =
          [p2pBody sp profile true, p2pBody sp profile false] ∧
        (graphHopperRoute env key points profile true).1 =
          ghAttempt (env.ghPost key) "GraphHopper returned no coordinates"
            (p2pBody sp profile false))) ∧
    (∀ am, (graphHopperRoute env key points profile am).2.length ≤ 2 ∧
      (ghRoundTrip env key lat lon distanceMeters seed profile am).2.length ≤ 2) ∧
    ((ghRoundTrip env key lat lon distanceMeters seed profile false).2 =
        [roundTripBody lon lat (jsRound distanceMeters) seed profile false] ∧
      (∀ r, ghAttempt (env.ghPost key) "GraphHopper round_trip returned no coordinates"
          (roundTripBody lon lat (jsRound distanceMeters) seed profile true) = .ok r →
        ghRoundTrip env key lat lon distanceMeters seed profile true =
          (.ok r, [roundTripBody lon lat (jsRound distanceMeters) seed profile true])) ∧
      (∀ e, ghAttempt (env.ghPost key) "GraphHopper round_trip returned no coordinates"
          (roundTripBody lon lat (jsRound distanceMeters) seed profile true) = .error e →
        (ghRoundTrip env key lat lon distanceMeters seed profile true).2 =
          [roundTripBody lon lat (jsRound distanceMeters) seed profile true,
           roundTripBody lon lat (jsRound distanceMeters) seed profile false] ∧
        (ghRoundTrip env key lat lon distanceMeters seed profile true).1 =
          ghAttempt (env.ghPost key) "GraphHopper round_trip returned no coordinates"
            (roundTripBody lon lat (jsRound distanceMeters) seed profile false))) := by
  refine ⟨?_, ?_, ?_, ?_, ?_⟩
  · intro sp hsp
    subst hsp
    refine ⟨?_, ?_, ?_, ?_⟩
    · simp [graphHopperRoute, runAttempts]
    · simp only [graphHopperRoute, if_true]
      rcases hg : ghAttempt (env.ghPost key) "GraphHopper returned no coordinates"
        (p2pBody (points.map fun p => (((normPair p.1 p.2).2, (normPair p.1 p.2).1) : LonLat))
          profile true) with e | r <;>
        simp [runAttempts, hg]
    · intro r hr
      simp [graphHopperRoute, runAttempts, hr]
    · intro e he
      simp [graphHopperRoute, runAttempts, he]
  · intro am
    constructor
    · rcases am with _ | _
      · simp [graphHopperRoute, runAttempts]
      · simp only [graphHopperRoute, if_true]
        rcases hg : ghAttempt (env.ghPost key) "GraphHopper returned no coordinates"
          (p2pBody (points.map fun p =>
            (((normPair p.1 p.2).2, (normPair p.1 p.2).1) : LonLat)) profile true) with e | r <;>
          simp [runAttempts, hg]
    · rcases am with _ | _
      · simp [ghRoundTrip, runAttempts]
      · simp only [ghRoundTrip, if_true]
        rcases hg : ghAttempt (env.ghPost key) "GraphHopper round_trip returned no coordinates"
          (roundTripBody lon lat (jsRound distanceMeters) seed profile true) with e | r <;>
          simp [runAttempts, hg]
  · simp [ghRoundTrip, runAttempts]
  · intro r hr
    simp [ghRoundTrip, runAttempts, hr]
  · intro e he
    simp [ghRoundTrip, runAttempts, he]

/-- Closed instance of `avoidMajorRoadsRetry` at an environment that rejects
exactly the weighted bodies: the point-to-point client POSTs the weighted body
and then exactly the bare body, and surfaces the bare attempt's outcome. -/
theorem avoidMajorRoadsRetry_witness :
    (graphHopperRoute envRejectModel "k" [] "foot" true).2 =
      [p2pBody [] "foot" true, p2pBody [] "foot" false] ∧
    (graphHopperRoute envRejectModel "k" [] "foot" true).1 =
      ghAttempt (envRejectModel.ghPost "k") "GraphHopper returned no coordinates"
        (p2pBody [] "foot" false) :=
  ((avoidMajorRoadsRetry envRejectModel "k" [] "foot" 0 0 1000 7).1 [] rfl).2.2.2
    "custom model rejected" rfl

/-! ## Handler branch reductions (shared by the orchestrator claims) -/

/-- On a valid out-and-back request the handler returns exactly the three
out-and-back candidates. -/
lemma handler_outAndBack (env : Env) (body : ReqBody) (startInp : JSInput) (tm lat lon : ℝ)
    (hs : body.startLatLng = some startInp)
    (ht : body.targetMeters = some tm) (ht0 : tm ≠ 0)
    (hn : normalizeLatLon startInp "startLatLng" = .ok (lat, lon))
    (hoab : body.routeType = some "out-and-back") :
    handler env "POST" body = .ok (outAndBackFeatures env lat lon
      ((bearingCandidates (prefOf body.elevationPref)).getD
        (body.directionSeed.getD 0 % (bearingCandidates (prefOf body.elevationPref)).length) 0)
      tm (prefOf body.elevationPref) body.avoidMajorRoads) := by
  simp [handler, hs, ht, ht0, hn, rtypeOf, hoab]

/-- On a valid loop request that does not enter the park branch (no park flag,
or no resolved park, or no key) the handler returns exactly the three
standard-loop candidates. -/
lemma handler_standardLoop (env : Env) (body : ReqBody) (startInp : JSInput) (tm lat lon : ℝ)
    (hs : body.startLatLng = some startInp)
    (ht : body.targetMeters = some tm) (ht0 : tm ≠ 0)
    (hn : normalizeLatLon startInp "startLatLng" = .ok (lat, lon))
    (hoab : body.routeType ≠ some "out-and-back")
    (hcase : body.loopAtPark = false ∨
      (resolvePark env lat lon (searchNameOf body.parkSearch)).1 = none ∨ env.ghKey = none) :
    handler env "POST" body = .ok (standardLoopFeatures env lat lon
      (body.directionSeed.getD 0) tm (prefOf body.elevationPref) body.avoidMajorRoads) := by
  rcases hcase with hp | hres | hkey
  · simp [handler, hs, ht, ht0, hn, rtypeOf, hoab, hp]
  · simp only [handler, hs, ht, hn]
    simp [rtypeOf, hoab, ht0, hres]
    intro hp
    rcases hgk : env.ghKey with _ | k <;> simp [hgk, hres]
  · simp only [handler, hs, ht, hn]
    simp [rtypeOf, hoab, ht0, hkey]

/-- On a valid park-loop request with a key and a resolved park the handler
returns exactly the three park-boundary-loop candidates. -/
lemma handler_parkLoop (env : Env) (body : ReqBody) (startInp : JSInput) (tm lat lon : ℝ)
    (key : String) (park : ParkPick)
    (hs : body.startLatLng = some startInp)
    (ht : body.targetMeters = some tm) (ht0 : tm ≠ 0)
    (hn : normalizeLatLon startInp "startLatLng" = .ok (lat, lon))
    (hoab : body.routeType ≠ some "out-and-back")
    (hp : body.loopAtPark = true)
    (hkey : env.ghKey = some key)
    (hres : (resolvePark env lat lon (searchNameOf body.parkSearch)).1 = some park) :
    handler env "POST" body = .ok (parkLoopFeatures env lat lon park
      (body.directionSeed.getD 0) tm (prefOf body.elevationPref) key
      (resolvePark env lat lon (searchNameOf body.parkSearch)).2 body.avoidMajorRoads) := by
  simp [handler, hs, ht, ht0, hn, rtypeOf, hoab, hp, hkey, hres]

/-! ## Distance jitter (claim C6) -/

/-- C6: on every valid request, in every mode, the three candidates are built
with target distances exactly `1.00 · targetMeters`, `targetMeters · 0.98` and
`targetMeters · 1.02`, in that order. -/
theorem candidateDistanceJitter (env : Env) (body : ReqBody) (startInp : JSInput)
    (tm lat lon : ℝ) (pref : Pref) (seedN : ℕ) (am : Bool) (bearing : ℝ)
    (hs : body.startLatLng = some startInp)
    (ht : body.targetMeters = some tm) (ht0 : tm ≠ 0)
    (hn : normalizeLatLon startInp "startLatLng" = .ok (lat, lon))
    (hpref : pref = prefOf body.elevationPref)
    (hseed : seedN = body.directionSeed.getD 0)
    (ham : am = body.avoidMajorRoads)
    (hbear : bearing = (bearingCandidates pref).getD (seedN % (bearingCandidates pref).length) 0) :
    (body.routeType = some "out-and-back" →
      handler env "POST" body = .ok
        [buildPointToPointFeature env (buildOutAndBackWaypoints lat lon tm bearing)
           (makeOutAndBack (lon, lat) tm bearing) tm pref env.ghKey "foot" 1.0 am,
         buildPointToPointFeature env (buildOutAndBackWaypoints lat lon (tm * 0.98) (bearing + 35))
           (makeOutAndBack (lon, lat) (tm * 0.98) (bearing + 35)) (tm * 0.98) pref env.ghKey
           "foot" (if pref = Pref.hills then 0.85 else 0.8) am,
         buildPointToPointFeature env (buildOutAndBackWaypoints lat lon (tm * 1.02) (bearing + 70))
           (makeOutAndBack (lon, lat) (tm * 1.02) (bearing + 70)) (tm * 1.02) pref env.ghKey
           "foot" (if pref = Pref.hills then 1.55 else 1.25) am]) ∧
    (body.routeType ≠ some "out-and-back" → body.loopAtPark = false →
      handler env "POST" body = .ok
        [buildRoundTripFeature env lat lon tm (seedN * 3) (makeLoop (lon, lat) tm pref) pref
           env.ghKey "foot" 1.0 am,
         buildRoundTripFeature env lat lon (tm * 0.98) (seedN * 3 + 1)
           (makeLoop (lon, lat) (tm * 0.98) pref) pref env.ghKey "foot"
           (if pref = Pref.hills then 0.85 else 0.8) am,
         buildRoundTripFeature env lat lon (tm * 1.02) (seedN * 3 + 2)
           (makeLoop (lon, lat) (tm * 1.02) pref) pref env.ghKey "foot"
           (if pref = Pref.hills then 1.55 else 1.25) am]) ∧
    (∀ key park, body.routeType ≠ some "out-and-back" → body.loopAtPark = true →
      env.ghKey = some key →
      (resolvePark env lat lon (searchNameOf body.parkSearch)).1 = some park →
      handler env "POST" body = .ok
        [buildParkBoundaryLoopFeature env lat lon park tm (seedN * 3) pref key
           (makeLoop (lon, lat) tm pref) 1.0
           (resolvePark env lat lon (searchNameOf body.parkSearch)).2 am,
         buildParkBoundaryLoopFeature env lat lon park (tm * 0.98) (seedN * 3 + 1) pref key
           (makeLoop (lon, lat) (tm * 0.98) pref) (if pref = Pref.hills then 0.85 else 0.8)
           (resolvePark env lat lon (searchNameOf body.parkSearch)).2 am,
         buildParkBoundaryLoopFeature env lat lon park (tm * 1.02) (seedN * 3 + 2) pref key
           (makeLoop (lon, lat) (tm * 1.02) pref) (if pref = Pref.hills then 1.55 else 1.25)
           (resolvePark env lat lon (searchNameOf body.parkSearch)).2 am]) := by
  subst hpref hseed ham hbear
  refine ⟨?_, ?_, ?_⟩
  · intro hoab
    rw [handler_outAndBack env body startInp tm lat lon hs ht ht0 hn hoab]
    simp [outAndBackFeatures]
  · intro hoab hp
    rw [handler_standardLoop env body startInp tm lat lon hs ht ht0 hn hoab (Or.inl hp)]
    simp [standardLoopFeatures]
  · intro key park hoab hp hkey hres
    rw [handler_parkLoop env body startInp tm lat lon key park hs ht ht0 hn hoab hp hkey hres]
    simp [parkLoopFeatures]

/-- Closed instance of `candidateDistanceJitter`: a standard-loop request for
4000 m yields the candidates for 4000, 4000·0.98 and 4000·1.02 meters. -/
theorem candidateDistanceJitter_witness :
    handler envDown "POST" bodyLoop = .ok
      [buildRoundTripFeature envDown 0 0 4000 0 (makeLoop (0, 0) 4000 Pref.flat) Pref.flat
         envDown.ghKey "foot" 1.0 false,
       buildRoundTripFeature envDown 0 0 (4000 * 0.98) 1 (makeLoop (0, 0) (4000 * 0.98) Pref.flat)
         Pref.flat envDown.ghKey "foot" 0.8 false,
       buildRoundTripFeature envDown 0 0 (4000 * 1.02) 2 (makeLoop (0, 0) (4000 * 1.02) Pref.flat)
         Pref.flat envDown.ghKey "foot" 1.25 false] := by
  have h := (candidateDistanceJitter envDown bodyLoop (.arr [some 0, some 0]) 4000 0 0
    Pref.flat 0 false 0 rfl rfl (by norm_num)
    (by norm_num [normalizeLatLon, normPair]) rfl rfl rfl rfl).2.1
    (by simp [bodyLoop]) rfl
  simpa using h

/-! ## Park-loop degradation (claim C3) -/

/-- C3: when a loop request has `loopAtPark` but the park resolution yields no
usable park (Overpass returned no elements, every candidate was filtered out,
or the lookup threw — all of which make `resolvePark` produce no park), the
handler falls through to the standard-loop path without raising an exception
(the model is total and answers `.ok`), producing exactly the result of the
identical request with `loopAtPark := false`, still with 3 features. -/
theorem parkLoopDegradation (env : Env) (body : ReqBody) (startInp : JSInput)
    (tm lat lon : ℝ)
    (hs : body.startLatLng = some startInp)
    (ht : body.targetMeters = some tm) (ht0 : tm ≠ 0)
    (hn : normalizeLatLon startInp "startLatLng" = .ok (lat, lon))
    (hloop : body.routeType ≠ some "out-and-back")
    (hpark : body.loopAtPark = true)
    (hres : (resolvePark env lat lon (searchNameOf body.parkSearch)).1 = none) :
    handler env "POST" body = handler env "POST" { body with loopAtPark := false } ∧
    ∃ fs, handler env "POST" body = .ok fs ∧ fs.length = 3 := by
  have h1 := handler_standardLoop env body startInp tm lat lon hs ht ht0 hn hloop
    (Or.inr (Or.inl hres))
  have h2 := handler_standardLoop env { body with loopAtPark := false } startInp tm lat lon
    hs ht ht0 hn hloop (Or.inl rfl)
  refine ⟨?_, standardLoopFeatures env lat lon (body.directionSeed.getD 0) tm
    (prefOf body.elevationPref) body.avoidMajorRoads, h1, by simp [standardLoopFeatures]⟩
  rw [h1, h2]

/-- Closed instance of `parkLoopDegradation`: with an Overpass stub returning
an empty element list, the park-loop request behaves as the plain loop request
and still yields 3 features. -/
theorem parkLoopDegradation_witness :
    handler envEmptyPlaces "POST" bodyParkLoop =
      handler envEmptyPlaces "POST" { bodyParkLoop with loopAtPark := false } ∧
    ∃ fs, handler envEmptyPlaces "POST" bodyParkLoop = .ok fs ∧ fs.length = 3 :=
  parkLoopDegradation envEmptyPlaces bodyParkLoop (.arr [some 0, some 0]) 4000 0 0 rfl rfl
    (by norm_num) (by norm_num [normalizeLatLon, normPair]) (by simp [bodyParkLoop]) rfl rfl

/-! ## Router failure fallback (claim C1) -/

/-- When every POST fails, the attempt loop surfaces one of the POST errors. -/
lemma runAttempts_fail (post : GHBody → Except String GHJson) (m1 m2 : String)
    (attempts : List GHBody) (hne : attempts ≠ [])
    (hfail : ∀ b, ∃ e, post b = .error e) :
    ∃ e, (runAttempts post m1 m2 attempts).1 = .error e ∧ ∃ b, post b = .error e := by
  induction attempts with
  | nil => exact absurd rfl hne
  | cons b rest ih =>
    cases rest with
    | nil =>
      obtain ⟨e, he⟩ := hfail b
      exact ⟨e, by simp [runAttempts, ghAttempt, he], b, he⟩
    | cons b2 rest2 =>
      obtain ⟨e, he⟩ := hfail b
      obtain ⟨e2, h1, h2⟩ := ih (List.cons_ne_nil _ _)
      exact ⟨e2, by simp [runAttempts, ghAttempt, he, h1], h2⟩

/-- The point-to-point client fails with one of the POST errors when every
POST fails. -/
lemma graphHopperRoute_fail (env : Env) (key : String) (points : List LatLon) (profile : String)
    (am : Bool) (hfail : ∀ b, ∃ e, env.ghPost key b = .error e) :
    ∃ e, (graphHopperRoute env key points profile am).1 = .error e ∧
      ∃ b, env.ghPost key b = .error e := by
  rw [graphHopperRoute]
  rcases am with _ | _
  · exact runAttempts_fail _ _ _ _ (by simp) hfail
  · exact runAttempts_fail _ _ _ _ (by simp) hfail

/-- The round-trip client fails with one of the POST errors when every POST
fails. -/
lemma ghRoundTrip_fail (env : Env) (key : String) (lat lon tm : ℝ) (seed : ℕ)
    (profile : String) (am : Bool) (hfail : ∀ b, ∃ e, env.ghPost key b = .error e) :
    ∃ e, (ghRoundTrip env key lat lon tm seed profile am).1 = .error e ∧
      ∃ b, env.ghPost key b = .error e := by
  rw [ghRoundTrip]
  rcases am with _ | _
  · exact runAttempts_fail _ _ _ _ (by simp) hfail
  · exact runAttempts_fail _ _ _ _ (by simp) hfail

/-- Under total router failure the round-trip builder degrades to the mock
feature whose single warning distinguishes the rate-limit case. -/
lemma buildRoundTripFeature_fail (env : Env) (key : String) (lat lon tm : ℝ) (seed : ℕ)
    (mock : List LonLat) (pref : Pref) (profile : String) (intensity : ℝ) (am : Bool)
    (hfail : ∀ b, ∃ e, env.ghPost key b = .error e) :
    ∃ e, buildRoundTripFeature env lat lon tm seed mock pref (some key) profile intensity am =
        buildMockFeature mock tm pref intensity
          [if rateWarning e then rateLimitWarning
           else "Route used mock (GraphHopper failed)."] ∧
      ∃ b, env.ghPost key b = .error e := by
  obtain ⟨e, h1, h2⟩ := ghRoundTrip_fail env key lat lon tm seed profile am hfail
  refine ⟨e, ?_, h2⟩
  rcases hr : rateWarning e <;> simp [buildRoundTripFeature, h1, hr]

/-- Under total router failure the point-to-point builder degrades to the mock
feature whose single warning distinguishes the rate-limit case. -/
lemma buildPointToPointFeature_fail (env : Env) (key : String) (waypoints : List LatLon)
    (mock : List LonLat) (tm : ℝ) (pref : Pref) (profile : String) (intensity : ℝ) (am : Bool)
    (hfail : ∀ b, ∃ e, env.ghPost key b = .error e) :
    ∃ e, buildPointToPointFeature env waypoints mock tm pref (some key) profile intensity am =
        buildMockFeature mock tm pref intensity
          [if rateWarning e then rateLimitWarning
           else "Route used mock (GraphHopper failed)."] ∧
      ∃ b, env.ghPost key b = .error e := by
  obtain ⟨e, h1, h2⟩ := graphHopperRoute_fail env key waypoints profile am hfail
  refine ⟨e, ?_, h2⟩
  rcases hr : rateWarning e <;> simp [buildPointToPointFeature, h1, hr]

/-- Under total router failure the park-boundary-loop builder fails on the
transit leg and degrades to the mock feature whose single warning
distinguishes the rate-limit case. -/
lemma buildParkBoundaryLoopFeature_fail (env : Env) (lat lon : ℝ) (park : ParkPick) (tm : ℝ)
    (seed : ℕ) (pref : Pref) (key : String) (mock : List LonLat) (intensity : ℝ)
    (extraW : Option String) (am : Bool)
    (hfail : ∀ b, ∃ e, env.ghPost key b = .error e) :
    ∃ e, buildParkBoundaryLoopFeature env lat lon park tm seed pref key mock intensity extraW am =
        buildMockFeature mock tm pref intensity
          [if rateWarning e then rateLimitWarning
           else "Park loop route failed, showing estimated route."] ∧
      ∃ b, env.ghPost key b = .error e := by
  obtain ⟨e, h1, h2⟩ := graphHopperRoute_fail env key
    [(lat, lon), (park.entry.2, park.entry.1)] "foot" am hfail
  refine ⟨e, ?_, h2⟩
  rcases hr : rateWarning e <;> simp [buildParkBoundaryLoopFeature, h1, hr]

/-- C1: on a valid request of any mode, when the router key is configured but
every router call fails, the handler returns exactly 3 features, each tagged
`source = "mock"` with a non-empty warnings array; and when every failure
message contains the substring "limit" (case-insensitively), the warning on
each feature is exactly the rate-limit remediation hint. -/
theorem routerFailureFallback (env : Env) (key : String) (body : ReqBody) (startInp : JSInput)
    (tm lat lon : ℝ)
    (hk : env.ghKey = some key)
    (hs : body.startLatLng = some startInp)
    (ht : body.targetMeters = some tm) (ht0 : tm ≠ 0)
    (hn : normalizeLatLon startInp "startLatLng" = .ok (lat, lon))
    (hfail : ∀ b, ∃ e, env.ghPost key b = .error e) :
    ∃ fs, handler env "POST" body = .ok fs ∧ fs.length = 3 ∧
      (∀ f ∈ fs, f.props.source = "mock" ∧ f.props.warnings ≠ []) ∧
      ((∀ b e, env.ghPost key b = .error e → rateWarning e = true) →
        ∀ f ∈ fs, f.props.warnings = [rateLimitWarning]) := by
  by_cases hoab : body.routeType = some "out-and-back"
  · refine ⟨_, handler_outAndBack env body startInp tm lat lon hs ht ht0 hn hoab, ?_, ?_, ?_⟩
    · simp [outAndBackFeatures]
    · simp only [outAndBackFeatures, hk]
      intro f hf
      simp only [List.mem_cons, List.not_mem_nil, or_false] at hf
      rcases hf with h | h | h <;>
      · obtain ⟨e, hfeq, -⟩ := buildPointToPointFeature_fail env key _ _ _ _ _ _ _ hfail
        subst h
        rw [hfeq]
        exact ⟨rfl, by simp [buildMockFeature]⟩
    · intro hlimit
      simp only [outAndBackFeatures, hk]
      intro f hf
      simp only [List.mem_cons, List.not_mem_nil, or_false] at hf
      rcases hf with h | h | h <;>
      · obtain ⟨e, hfeq, b, hb⟩ := buildPointToPointFeature_fail env key _ _ _ _ _ _ _ hfail
        subst h
        rw [hfeq, hlimit b e hb]
        rfl
  · by_cases hpark : body.loopAtPark = true
    · rcases hres : (resolvePark env lat lon (searchNameOf body.parkSearch)).1 with _ | park
      · refine ⟨_, handler_standardLoop env body startInp tm lat lon hs ht ht0 hn hoab
          (Or.inr (Or.inl hres)), ?_, ?_, ?_⟩
        · simp [standardLoopFeatures]
        · simp only [standardLoopFeatures, hk]
          intro f hf
          simp only [hk, List.mem_cons, List.not_mem_nil, or_false] at hf
          rcases hf with h | h | h <;>
          · obtain ⟨e, hfeq, -⟩ := buildRoundTripFeature_fail env key _ _ _ _ _ _ _ _ _ hfail
            subst h
            rw [hfeq]
            exact ⟨rfl, by simp [buildMockFeature]⟩
        · intro hlimit
          simp only [standardLoopFeatures, hk]
          intro f hf
          simp only [hk, List.mem_cons, List.not_mem_nil, or_false] at hf
          rcases hf with h | h | h <;>
          · obtain ⟨e, hfeq, b, hb⟩ := buildRoundTripFeature_fail env key _ _ _ _ _ _ _ _ _ hfail
            subst h
            rw [hfeq, hlimit b e hb]
            rfl
      · refine ⟨_, handler_parkLoop env body startInp tm lat lon key park hs ht ht0 hn hoab
          hpark hk hres, ?_, ?_, ?_⟩
        · simp [parkLoopFeatures]
        · simp only [parkLoopFeatures]
          intro f hf
          simp only [List.mem_cons, List.not_mem_nil, or_false] at hf
          rcases hf with h | h | h <;>
          · obtain ⟨e, hfeq, -⟩ :=
              buildParkBoundaryLoopFeature_fail env lat lon park _ _ _ key _ _ _ _ hfail
            subst h
            rw [hfeq]
            exact ⟨rfl, by simp [buildMockFeature]⟩
        · intro hlimit
          simp only [parkLoopFeatures]
          intro f hf
          simp only [List.mem_cons, List.not_mem_nil, or_false] at hf
          rcases hf with h | h | h <;>
          · obtain ⟨e, hfeq, b, hb⟩ :=
              buildParkBoundaryLoopFeature_fail env lat lon park _ _ _ key _ _ _ _ hfail
            subst h
            rw [hfeq, hlimit b e hb]
            rfl
    · have hp : body.loopAtPark = false := by
        rcases h : body.loopAtPark
        · rfl
        · exact absurd h hpark
      refine ⟨_, handler_standardLoop env body startInp tm lat lon hs ht ht0 hn hoab
        (Or.inl hp), ?_, ?_, ?_⟩
      · simp [standardLoopFeatures]
      · simp only [standardLoopFeatures, hk]
        intro f hf
        simp only [hk, List.mem_cons, List.not_mem_nil, or_false] at hf
        rcases hf with h | h | h <;>
        · obtain ⟨e, hfeq, -⟩ := buildRoundTripFeature_fail env key _ _ _ _ _ _ _ _ _ hfail
          subst h
          rw [hfeq]
          exact ⟨rfl, by simp [buildMockFeature]⟩
      · intro hlimit
        simp only [standardLoopFeatures, hk]
        intro f hf
        simp only [hk, List.mem_cons, List.not_mem_nil, or_false] at hf
        rcases hf with h | h | h <;>
        · obtain ⟨e, hfeq, b, hb⟩ := buildRoundTripFeature_fail env key _ _ _ _ _ _ _ _ _ hfail
          subst h
          rw [hfeq, hlimit b e hb]
          rfl

/-- Closed instance of `routerFailureFallback` at an environment whose every
router call throws a rate-limit error. -/
theorem routerFailureFallback_witness :
    ∃ fs, handler envLimit "POST" bodyLoop = .ok fs ∧ fs.length = 3 ∧
      (∀ f ∈ fs, f.props.source = "mock" ∧ f.props.warnings ≠ []) ∧
      ((∀ b e, envLimit.ghPost "k" b = .error e → rateWarning e = true) →
        ∀ f ∈ fs, f.props.warnings = [rateLimitWarning]) :=
  routerFailureFallback envLimit "k" bodyLoop (.arr [some 0, some 0]) 4000 0 0 rfl rfl rfl
    (by norm_num) (by norm_num [normalizeLatLon, normPair])
    (fun b => ⟨"Daily request limit exceeded", rfl⟩)

/-! ## Park-boundary-loop stitching (claim C4) -/

/-- C4 (as amended): when both router legs of the park-boundary loop succeed,
the perimeter waypoints are usable, and the measured lap distance is positive,
the lap count is `clamp(1, 4, round(max(600, target − 2·transit) / lap))`, the
final geometry is the transit leg, then the lap geometry repeated that many
times — each repetition after the first dropping the duplicated first lap
point (`pushLaps`) — then the reversed transit leg, and the reported distance
and time derive from the totals `transit·2 + lap·laps`. -/
theorem parkBoundaryLoopStitching (env : Env) (lat lon : ℝ) (park : ParkPick) (tm : ℝ)
    (seed : ℕ) (pref : Pref) (key : String) (mock : List LonLat) (intensity : ℝ)
    (extraW : Option String) (am : Bool) (toPath lapPath : GHPath)
    (toCoords lapCoords : List GHCoord) (dTo dLap : ℝ)
    (hto : (graphHopperRoute env key [(lat, lon), (park.entry.2, park.entry.1)] "foot" am).1 =
      .ok (toPath, toCoords))
    (hwps : (boundaryWaypoints park.boundary
      (nearestBoundaryPoint park.boundary lon lat lat).2.1 PARK_WAYPOINTS lat).isEmpty = false)
    (hlap : (graphHopperRoute env key
        ([(park.entry.2, park.entry.1)] ++
          (boundaryWaypoints park.boundary
            (nearestBoundaryPoint park.boundary lon lat lat).2.1 PARK_WAYPOINTS lat).map
            (fun w => ((w.2, w.1) : LatLon)) ++ [(park.entry.2, park.entry.1)]) "foot" am).1 =
      .ok (lapPath, lapCoords))
    (hdTo : toPath.distance = some dTo)
    (hdLap : lapPath.distance = some dLap) (hpos : 0 < dLap) :
    (buildParkBoundaryLoopFeature env lat lon park tm seed pref key mock intensity
        extraW am).coordinates =
      toCoords.map (fun c => ((c.lon, c.lat) : LonLat)) ++
        pushLaps (lapCoords.map fun c => ((c.lon, c.lat) : LonLat))
          (parkLapCount tm dTo dLap).toNat ++
        (toCoords.map fun c => ((c.lon, c.lat) : LonLat)).reverse ∧
    (buildParkBoundaryLoopFeature env lat lon park tm seed pref key mock intensity
        extraW am).props.parkMeta.map (·.parkLaps) = some (parkLapCount tm dTo dLap) ∧
    (buildParkBoundaryLoopFeature env lat lon park tm seed pref key mock intensity
        extraW am).props.metrics.distanceMiles =
      toFixed2 ((dTo * 2 + dLap * ((parkLapCount tm dTo dLap : ℤ) : ℝ)) / 1609.34) ∧
    (buildParkBoundaryLoopFeature env lat lon park tm seed pref key mock intensity
        extraW am).props.metrics.timeMinutes =
      (if toPath.time.getD 0 * 2 + lapPath.time.getD 0 * ((parkLapCount tm dTo dLap : ℤ) : ℝ) > 0
       then jsRound ((toPath.time.getD 0 * 2 +
          lapPath.time.getD 0 * ((parkLapCount tm dTo dLap : ℤ) : ℝ)) / 1000 / 60)
       else jsRound ((dTo * 2 + dLap * ((parkLapCount tm dTo dLap : ℤ) : ℝ)) / 1609.34 * 10)) := by
  simp only [buildParkBoundaryLoopFeature, hto, hwps, hlap, hdTo, hdLap, Option.getD_some,
    Bool.false_eq_true, if_false, if_pos hpos, buildCombinedFeature, parkLapCount]
  simp

/-- The constant router of `envPark` answers every point-to-point call with
the fixed two-point path. -/
lemma ghRoute_envPark (pts : List LatLon) (profile : String) :
    (graphHopperRoute envPark "k" pts profile false).1 = .ok (pathFix, pathFix.points) := rfl

/-- With a two-vertex boundary there is exactly one segment, so the nearest
boundary segment index is 0. -/
lemma nbp_parkTwo : (nearestBoundaryPoint parkTwo.boundary 0 0 0).2.1 = 0 := rfl

/-- Projected distance along the equatorial unit-degree segment. -/
lemma distMeters_eval1 : distMeters 0 0 1 0 0 = 111320 := by
  have hc : Real.cos ((0 : ℝ) * Real.pi / 180) = 1 := by
    rw [show (0 : ℝ) * Real.pi / 180 = 0 by ring, Real.cos_zero]
  simp only [distMeters, projectMeters, hc]
  rw [show ((0 : ℝ) * 111320 * 1 - 1 * 111320 * 1) ^ 2 +
      ((0 : ℝ) * 110540 - 0 * 110540) ^ 2 = 111320 ^ 2 by norm_num]
  exact Real.sqrt_sq (by norm_num)

/-- Projected distance along the reversed equatorial unit-degree segment. -/
lemma distMeters_eval2 : distMeters 1 0 0 0 0 = 111320 := by
  have hc : Real.cos ((0 : ℝ) * Real.pi / 180) = 1 := by
    rw [show (0 : ℝ) * Real.pi / 180 = 0 by ring, Real.cos_zero]
  simp only [distMeters, projectMeters, hc]
  rw [show ((1 : ℝ) * 111320 * 1 - 0 * 111320 * 1) ^ 2 +
      ((0 : ℝ) * 110540 - 0 * 110540) ^ 2 = 111320 ^ 2 by norm_num]
  exact Real.sqrt_sq (by norm_num)

/-- The perimeter waypoints of the two-vertex boundary are the full
6-element sample (the ring is closed to three vertices and its total length,
222640 m, exceeds the 1 m degeneracy cutoff). -/
lemma bwp_parkTwo :
    (boundaryWaypoints parkTwo.boundary 0 PARK_WAYPOINTS 0).length = PARK_WAYPOINTS := by
  rw [show parkTwo.boundary = [((0 : ℝ), 0), (1, 0)] from rfl]
  norm_num [boundaryWaypoints, PARK_WAYPOINTS, List.scanl, distMeters_eval1, distMeters_eval2]

/-- The perimeter waypoints of the two-vertex boundary are non-empty. -/
lemma bwp_parkTwo_ne :
    (boundaryWaypoints parkTwo.boundary
      (nearestBoundaryPoint parkTwo.boundary 0 0 0).2.1 PARK_WAYPOINTS 0).isEmpty = false := by
  rw [nbp_parkTwo]
  rcases hb : boundaryWaypoints parkTwo.boundary 0 PARK_WAYPOINTS 0 with _ | ⟨a, t⟩
  · have := bwp_parkTwo
    rw [hb] at this
    simp [PARK_WAYPOINTS] at this
  · rfl

/-- Full concrete run of the park-boundary loop: target 4000 m against the
constant 1000 m two-point path gives budget `max(600, 2000) = 2000`, lap count
`round(2000/1000) = 2`, and the 7-point stitched geometry (the second lap
repetition drops the duplicated first lap point). -/
lemma parkEval :
    (buildParkBoundaryLoopFeature envPark 0 0 parkTwo 4000 0 Pref.flat "k" [] 1 none
        false).coordinates =
      [((0 : ℝ), 0), (1, 1), (0, 0), (1, 1), (1, 1), (1, 1), (0, 0)] ∧
    (buildParkBoundaryLoopFeature envPark 0 0 parkTwo 4000 0 Pref.flat "k" [] 1 none
        false).props.parkMeta.map (·.parkLaps) = some 2 := by
  have hmax : max (600 : ℝ) (4000 - 1000 * 2) = 2000 := by
    rw [max_eq_right (by norm_num : (600 : ℝ) ≤ 4000 - 1000 * 2)]
    norm_num
  have hjs : jsRound ((2000 : ℝ) / 1000) = 2 := by norm_num [jsRound]
  have hmin : min PARK_MAX_LAPS (2 : ℤ) = 2 := by norm_num [PARK_MAX_LAPS]
  have hmax1 : max (1 : ℤ) 2 = 2 := by norm_num
  have hpos : ((1000 : ℝ) > 0) = True := eq_true (by norm_num)
  have hrange : List.range 2 = [0, 1] := rfl
  have htn : (2 : ℤ).toNat = 2 := rfl
  simp only [buildParkBoundaryLoopFeature, ghRoute_envPark, bwp_parkTwo_ne, pathFix, htn,
    Option.getD_some, hmax, hjs, hmin, hmax1, hpos, if_true, Bool.false_eq_true, if_false,
    buildCombinedFeature, pushLaps, hrange, Int.toNat_ofNat, List.flatMap_cons,
    List.flatMap_nil, List.map_cons, List.map_nil, List.drop_succ_cons, List.drop_nil,
    List.drop_zero, List.reverse_cons, List.reverse_nil, List.nil_append, List.append_nil,
    List.cons_append, Option.map_some]
  norm_num

/-- C4 as stated is false on the code: with a constant router whose every leg
is the 2-point path `[(0,0),(1,1)]` of distance 1000 m and a 4000 m target,
the lap count is 2, so the claim predicts the 8-point geometry
transit + lap + lap + reverse(transit); the code emits 7 points, dropping the
duplicated first point of the second lap repetition. -/
theorem parkBoundaryLoopStitching_counterexample :
    (buildParkBoundaryLoopFeature envPark 0 0 parkTwo 4000 0 Pref.flat "k" [] 1 none
        false).props.parkMeta.map (·.parkLaps) = some 2 ∧
    (buildParkBoundaryLoopFeature envPark 0 0 parkTwo 4000 0 Pref.flat "k" [] 1 none
        false).coordinates ≠
      [((0 : ℝ), 0), (1, 1)] ++ ([((0 : ℝ), 0), (1, 1)] ++ [((0 : ℝ), 0), (1, 1)]) ++
        [((0 : ℝ), 0), (1, 1)].reverse := by
  refine ⟨parkEval.2, fun h => ?_⟩
  rw [parkEval.1] at h
  have hlen := congrArg List.length h
  simp at hlen

/-- Closed instance of `parkBoundaryLoopStitching` at the same concrete run:
both legs are the fixed 1000 m path, the waypoints are usable, and the lap
distance is positive, so the amended stitching equations hold. -/
theorem parkBoundaryLoopStitching_witness :
    (buildParkBoundaryLoopFeature envPark 0 0 parkTwo 4000 0 Pref.flat "k" [] 1 none
        false).coordinates =
      pathFix.points.map (fun c => ((c.lon, c.lat) : LonLat)) ++
        pushLaps (pathFix.points.map fun c => ((c.lon, c.lat) : LonLat))
          (parkLapCount 4000 1000 1000).toNat ++
        (pathFix.points.map fun c => ((c.lon, c.lat) : LonLat)).reverse ∧
    (buildParkBoundaryLoopFeature envPark 0 0 parkTwo 4000 0 Pref.flat "k" [] 1 none
        false).props.parkMeta.map (·.parkLaps) = some (parkLapCount 4000 1000 1000) ∧
    (buildParkBoundaryLoopFeature envPark 0 0 parkTwo 4000 0 Pref.flat "k" [] 1 none
        false).props.metrics.distanceMiles =
      toFixed2 ((1000 * 2 + 1000 * ((parkLapCount 4000 1000 1000 : ℤ) : ℝ)) / 1609.34) ∧
    (buildParkBoundaryLoopFeature envPark 0 0 parkTwo 4000 0 Pref.flat "k" [] 1 none
        false).props.metrics.timeMinutes =
      (if pathFix.time.getD 0 * 2 +
          pathFix.time.getD 0 * ((parkLapCount 4000 1000 1000 : ℤ) : ℝ) > 0
       then jsRound ((pathFix.time.getD 0 * 2 +
          pathFix.time.getD 0 * ((parkLapCount 4000 1000 1000 : ℤ) : ℝ)) / 1000 / 60)
       else jsRound ((1000 * 2 + 1000 * ((parkLapCount 4000 1000 1000 : ℤ) : ℝ)) / 1609.34 * 10)) :=
  parkBoundaryLoopStitching envPark 0 0 parkTwo 4000 0 Pref.flat "k" [] 1 none false
    pathFix pathFix pathFix.points pathFix.points 1000 1000 (ghRoute_envPark _ _)
    bwp_parkTwo_ne (ghRoute_envPark _ _) rfl rfl (by norm_num)

end RunRoute
